import Mathlib

/-!
Shallow embedding of the distributed card-game backend (servidor/modelos.py,
servidor/servico_coordenacao.py, servidor/servico_2pc.py, servidor/main.py).

The coordination store (Redis) is shared by every node; each node additionally
keeps an in-memory map of pending transactions.  Redis single-key operations are
linearizable, so the WATCH/MULTI/EXEC retry loops of servico_coordenacao.py are
embedded as their linearized fixpoints (a successful conditional update).  The
Python `random` module is embedded as an explicit stream of naturals threaded
through the state; `requests` calls are embedded as an explicit network record
so that lost or non-200 replies can be represented (`none`).
-/

/-- modelos.py `Carta`. -/
structure Carta where
  id_carta : String
  nome : String
  tipo : String
  skin : String
  raridade : String
deriving DecidableEq

/-- modelos.py `Jogador`. -/
structure Jogador where
  id_jogador : String
  nome : String
  servidor_local : String
deriving DecidableEq

/-- modelos.py `Inventario` (field defaults: `cartas = []`, `pacotes_disponiveis = 0`). -/
structure Inventario where
  id_jogador : String
  cartas : List Carta
  pacotes_disponiveis : Int
deriving DecidableEq

/-- modelos.py `EstoqueGlobal` (default `pacotes_restantes = 50`). -/
structure EstoqueGlobal where
  pacotes_restantes : Int
deriving DecidableEq

/-- modelos.py `DetalhesTroca`. -/
structure DetalhesTroca where
  id_jogador_a : String
  id_carta_a : String
  id_jogador_b : String
  id_carta_b : String
deriving DecidableEq

/-- The `dados : Dict` payload of a `Transacao2PC`.  servico_2pc.py stores either
`{"id_jogador", "quantidade_pacotes"}` (abrir_pacote) or a `DetalhesTroca` dict
(troca_cartas); the dict is embedded as this tagged variant.  Accessing a field
that the dict does not hold raises `KeyError` in the source; the handlers below
model that exception at the exact program point where it would fire. -/
inductive DadosTransacao where
  | abrirPacote (id_jogador : String) (quantidade_pacotes : Int)
  | trocaCartas (detalhes : DetalhesTroca)
deriving DecidableEq

/-- modelos.py `Transacao2PC`. -/
structure Transacao2PC where
  id_transacao : String
  coordenador_url : String
  tipo_operacao : String
  status : String
  dados : DadosTransacao
deriving DecidableEq

/-- modelos.py `Voto2PC`. -/
structure Voto2PC where
  id_transacao : String
  servidor_url : String
  voto : String
  mensagem : Option String
deriving DecidableEq

/-- modelos.py `Resultado2PC`. -/
structure Resultado2PC where
  id_transacao : String
  servidor_url : String
  decisao : String
deriving DecidableEq

/-! ### Key/value maps (Redis keys, Python dicts) -/

/-- Lookup in an association list (Redis GET / dict access). -/
def getKV (k : String) : List (String × α) → Option α
  | [] => none
  | (k', v) :: resto => if k' = k then some v else getKV k resto

/-- Overwrite-or-insert in an association list (Redis SET / dict assignment). -/
def setKV (k : String) (v : α) : List (String × α) → List (String × α)
  | [] => [(k, v)]
  | (k', v') :: resto => if k' = k then (k, v) :: resto else (k', v') :: setKV k v resto

/-- Delete from an association list (Redis DEL / dict pop). -/
def delKV (k : String) : List (String × α) → List (String × α)
  | [] => []
  | (k', v') :: resto => if k' = k then delKV k resto else (k', v') :: delKV k resto

/-! ### The ambient random stream (Python `random`) -/

/-- The ambient pseudo-random stream of the process.  `seq` enumerates the draws;
`pos` is how many draws have been consumed.  The Python `random` module is never
seeded by the source, so the stream is arbitrary and unrelated to any
transaction id. -/
structure GeradorAleatorio where
  seq : Nat → Nat
  pos : Nat

/-- One draw bounded by `n` (used for `random.choice` on a sequence of length `n`
and, shifted, for `random.randint`). -/
def GeradorAleatorio.proximo (g : GeradorAleatorio) (n : Nat) : Nat × GeradorAleatorio :=
  (g.seq g.pos % n, ⟨g.seq, g.pos + 1⟩)

/-! ### Card generation (servico_2pc.py lines 18-44) -/

/-- Python `str.capitalize`: first character upper-cased, the rest lower-cased. -/
def capitalizar (s : String) : String :=
  match s.data with
  | [] => ""
  | c :: cs => String.mk (c.toUpper :: cs.map Char.toLower)

def tiposCarta : List String := ["pedra", "papel", "tesoura"]

def skinsCarta (tipo : String) : List String :=
  if tipo = "pedra" then ["Rocha Vulcânica", "Mármore Polido", "Seixo de Rio"]
  else if tipo = "papel" then ["Papiro Antigo", "Jornal Velho", "Nota de Dólar"]
  else ["Lâmina Afiada", "Tesoura de Jardim", "Navalha de Barbeiro"]

def raridadesCarta : List String :=
  ["Comum", "Comum", "Comum", "Rara", "Rara", "Épica", "Lendária"]

/-- `random.choice(l)`. -/
def escolher (l : List String) (g : GeradorAleatorio) : String × GeradorAleatorio :=
  let r := g.proximo l.length
  (l.getD r.1 "", r.2)

/-- servico_2pc.py `gerar_carta`: draws a type, a skin for it, a rarity and a
numeric id `random.randint(1000, 9999)`, in source order.  `id_jogador` is
accepted and ignored, exactly as in the source. -/
def gerar_carta (id_jogador : String) (g : GeradorAleatorio) : Carta × GeradorAleatorio :=
  let r1 := escolher tiposCarta g
  let tipo_escolhido := r1.1
  let r2 := escolher (skinsCarta tipo_escolhido) r1.2
  let skin_escolhida := r2.1
  let r3 := escolher raridadesCarta r2.2
  let raridade_escolhida := r3.1
  let r4 := r3.2.proximo 9000
  (⟨"CARTA-" ++ toString (1000 + r4.1),
    capitalizar tipo_escolhido ++ " (" ++ skin_escolhida ++ ")",
    tipo_escolhido, skin_escolhida, raridade_escolhida⟩, r4.2)

/-- servico_2pc.py `simular_abertura_pacote`: three cards. -/
def simular_abertura_pacote (id_jogador : String) (g : GeradorAleatorio) :
    List Carta × GeradorAleatorio :=
  let r1 := gerar_carta id_jogador g
  let r2 := gerar_carta id_jogador r1.2
  let r3 := gerar_carta id_jogador r2.2
  ([r1.1, r2.1, r3.1], r3.2)

/-! ### Coordination store (servico_coordenacao.py) -/

/-- The shared Redis instance: key `estoque_global`, keys `inventario:{id}`,
keys `transacao_2pc:{id}` (the two key families are kept as separate maps). -/
structure Store where
  estoque : EstoqueGlobal
  inventarios : List (String × Inventario)
  transacoes : List (String × Transacao2PC)
deriving DecidableEq

def get_estoque_global (s : Store) : EstoqueGlobal := s.estoque

def set_estoque_global (e : EstoqueGlobal) (s : Store) : Store :=
  ⟨e, s.inventarios, s.transacoes⟩

def get_inventario (id_jogador : String) (s : Store) : Option Inventario :=
  getKV id_jogador s.inventarios

def set_inventario (inv : Inventario) (s : Store) : Store :=
  ⟨s.estoque, setKV inv.id_jogador inv s.inventarios, s.transacoes⟩

def get_transacao (id_transacao : String) (s : Store) : Option Transacao2PC :=
  getKV id_transacao s.transacoes

def set_transacao (t : Transacao2PC) (s : Store) : Store :=
  ⟨s.estoque, s.inventarios, setKV t.id_transacao t s.transacoes⟩

def remover_transacao (id_transacao : String) (s : Store) : Store :=
  ⟨s.estoque, s.inventarios, delKV id_transacao s.transacoes⟩

/-- servico_coordenacao.py `decrementar_estoque_atomico`, lines 79-115: the
WATCH/MULTI/EXEC retry loop linearizes to a single conditional update — it
returns `False` leaving the stock untouched when `pacotes_restantes <
quantidade`, otherwise writes the decremented stock and returns `True`. -/
def decrementar_estoque_atomico (quantidade : Int) (s : Store) : Bool × Store :=
  if s.estoque.pacotes_restantes < quantidade then (false, s)
  else (true, set_estoque_global ⟨s.estoque.pacotes_restantes - quantidade⟩ s)

/-- servico_coordenacao.py `incrementar_estoque_atomico`, lines 117-135:
unconditional atomic increment. -/
def incrementar_estoque_atomico (quantidade : Int) (s : Store) : Bool × Store :=
  (true, set_estoque_global ⟨s.estoque.pacotes_restantes + quantidade⟩ s)

/-! ### System state: shared store + per-node in-memory transaction caches -/

/-- Global state of a run: the shared coordination store, each node's
`transacoes_em_andamento` dictionary (keyed by the node's URL), and the ambient
random stream. -/
structure Sistema where
  store : Store
  caches : List (String × List (String × Transacao2PC))
  rng : GeradorAleatorio

/-- A node's `transacoes_em_andamento` dictionary (empty when the node has not
cached anything yet). -/
def cacheDe (url : String) (sis : Sistema) : List (String × Transacao2PC) :=
  (getKV url sis.caches).getD []

/-- `self.transacoes_em_andamento[id_transacao] = transacao`. -/
def cachePut (url id_transacao : String) (t : Transacao2PC) (sis : Sistema) : Sistema :=
  ⟨sis.store, setKV url (setKV id_transacao t (cacheDe url sis)) sis.caches, sis.rng⟩

/-- `self.transacoes_em_andamento.pop(id_transacao, None)`: the looked-up value
together with the state in which the entry is gone. -/
def cachePop (url id_transacao : String) (sis : Sistema) :
    Option Transacao2PC × Sistema :=
  let c := cacheDe url sis
  (getKV id_transacao c, ⟨sis.store, setKV url (delKV id_transacao c) sis.caches, sis.rng⟩)

/-- The transaction record a participant resolves for a decide message: first
its in-memory map, then the shared store (servico_2pc.py lines 201-207 and
315-321; the store fallback is unaffected by the preceding dict pop). -/
def transacaoVisivel (url id_transacao : String) (sis : Sistema) : Option Transacao2PC :=
  match getKV id_transacao (cacheDe url sis) with
  | some t => some t
  | none => get_transacao id_transacao sis.store

/-! ### Participant handlers (servico_2pc.py) -/

/-- servico_2pc.py `_participante_prepare_abrir_pacote_logica`, lines 170-189.
On a payload of the wrong shape the source would raise `KeyError` at
`transacao.dados["quantidade_pacotes"]`, which surfaces to a remote coordinator
as a non-200 reply, i.e. a NO vote; that dead branch (no caller ever builds an
`abrir_pacote` transaction with a trade payload) is embedded as an abort vote. -/
def participante_prepare_abrir_pacote_logica (url : String) (transacao : Transacao2PC)
    (sis : Sistema) : Voto2PC × Sistema :=
  let id_transacao := transacao.id_transacao
  let sis := cachePut url id_transacao transacao sis
  let sis := ⟨set_transacao transacao sis.store, sis.caches, sis.rng⟩
  match transacao.dados with
  | DadosTransacao.abrirPacote _ quantidade_pacotes =>
    let r := decrementar_estoque_atomico quantidade_pacotes sis.store
    if r.1 then
      (⟨id_transacao, url, "VOTE_COMMIT", none⟩, ⟨r.2, sis.caches, sis.rng⟩)
    else
      (⟨id_transacao, url, "VOTE_ABORT",
        some "Estoque global esgotado ou conflito de concorrência."⟩,
       ⟨r.2, sis.caches, sis.rng⟩)
  | DadosTransacao.trocaCartas _ =>
    (⟨id_transacao, url, "VOTE_ABORT", some "KeyError"⟩, sis)

/-- servico_2pc.py `_participante_prepare_troca_cartas_logica`, lines 278-303.
The wrong-shape payload branch (`DetalhesTroca(**dados)` raising) is dead code,
embedded as an abort vote as above. -/
def participante_prepare_troca_cartas_logica (url : String) (transacao : Transacao2PC)
    (sis : Sistema) : Voto2PC × Sistema :=
  let id_transacao := transacao.id_transacao
  let sis := cachePut url id_transacao transacao sis
  let sis := ⟨set_transacao transacao sis.store, sis.caches, sis.rng⟩
  match transacao.dados with
  | DadosTransacao.trocaCartas detalhes =>
    let inventario_a := get_inventario detalhes.id_jogador_a sis.store
    let inventario_b := get_inventario detalhes.id_jogador_b sis.store
    if (match inventario_a with
        | some inv => !(inv.cartas.any (fun c => c.id_carta == detalhes.id_carta_a))
        | none => false) then
      (⟨id_transacao, url, "VOTE_ABORT",
        some ("Jogador A não possui a carta " ++ detalhes.id_carta_a ++ ".")⟩, sis)
    else if (match inventario_b with
        | some inv => !(inv.cartas.any (fun c => c.id_carta == detalhes.id_carta_b))
        | none => false) then
      (⟨id_transacao, url, "VOTE_ABORT",
        some ("Jogador B não possui a carta " ++ detalhes.id_carta_b ++ ".")⟩, sis)
    else
      (⟨id_transacao, url, "VOTE_COMMIT", none⟩, sis)
  | DadosTransacao.abrirPacote _ _ =>
    (⟨id_transacao, url, "VOTE_ABORT", some "ValidationError"⟩, sis)

/-- servico_2pc.py `_participante_commit_abort_abrir_pacote_logica`, lines
195-228.  The wrong-shape payload case is where the source raises `KeyError` at
`transacao.dados["id_jogador"]`: the dict pop has already happened and nothing
further runs, which is exactly what this branch returns. -/
def participante_commit_abort_abrir_pacote_logica (url : String) (resultado : Resultado2PC)
    (sis : Sistema) : Sistema :=
  let id_transacao := resultado.id_transacao
  let txOpt := transacaoVisivel url id_transacao sis
  let sis := (cachePop url id_transacao sis).2
  match txOpt with
  | none => sis
  | some transacao =>
    match transacao.dados with
    | DadosTransacao.abrirPacote id_jogador quantidade_pacotes =>
      if resultado.decisao = "GLOBAL_COMMIT" then
        let inventario := (get_inventario id_jogador sis.store).getD ⟨id_jogador, [], 0⟩
        let r := simular_abertura_pacote id_jogador sis.rng
        let inventario' : Inventario :=
          ⟨inventario.id_jogador, inventario.cartas ++ r.1,
           inventario.pacotes_disponiveis⟩
        ⟨remover_transacao id_transacao (set_inventario inventario' sis.store),
         sis.caches, r.2⟩
      else if resultado.decisao = "GLOBAL_ABORT" then
        ⟨remover_transacao id_transacao
           (incrementar_estoque_atomico quantidade_pacotes sis.store).2,
         sis.caches, sis.rng⟩
      else
        ⟨remover_transacao id_transacao sis.store, sis.caches, sis.rng⟩
    | DadosTransacao.trocaCartas _ => sis

/-- servico_2pc.py `_participante_commit_abort_troca_cartas_logica`, lines
309-355.  `next(...)` is `List.find?`; `list.remove` is `List.erase`;
`list.append` appends at the end; inventory A is persisted before inventory B. -/
def participante_commit_abort_troca_cartas_logica (url : String) (resultado : Resultado2PC)
    (sis : Sistema) : Sistema :=
  let id_transacao := resultado.id_transacao
  let txOpt := transacaoVisivel url id_transacao sis
  let sis := (cachePop url id_transacao sis).2
  match txOpt with
  | none => sis
  | some transacao =>
    match transacao.dados with
    | DadosTransacao.trocaCartas detalhes =>
      let sis :=
        if resultado.decisao = "GLOBAL_COMMIT" then
          match get_inventario detalhes.id_jogador_a sis.store,
                get_inventario detalhes.id_jogador_b sis.store with
          | some inventario_a, some inventario_b =>
            match inventario_a.cartas.find? (fun c => c.id_carta == detalhes.id_carta_a),
                  inventario_b.cartas.find? (fun c => c.id_carta == detalhes.id_carta_b) with
            | some carta_a, some carta_b =>
              let inventario_a' : Inventario :=
                ⟨inventario_a.id_jogador, inventario_a.cartas.erase carta_a ++ [carta_b],
                 inventario_a.pacotes_disponiveis⟩
              let inventario_b' : Inventario :=
                ⟨inventario_b.id_jogador, inventario_b.cartas.erase carta_b ++ [carta_a],
                 inventario_b.pacotes_disponiveis⟩
              ⟨set_inventario inventario_b' (set_inventario inventario_a' sis.store),
               sis.caches, sis.rng⟩
            | _, _ => sis
          | _, _ => sis
        else sis
      ⟨remover_transacao id_transacao sis.store, sis.caches, sis.rng⟩
    | DadosTransacao.abrirPacote _ _ => sis

/-! ### The RPC mesh seen by a coordinator -/

/-- The four peer-facing endpoints as a coordinator reaches them through
`requests.post`.  A prepare reply of `none` is a `requests` exception or a
non-200 status (servico_2pc.py `_enviar_prepare`, lines 66-80); a decide is
fire-and-forget (`_enviar_decisao`, lines 82-93). -/
structure Rede where
  prepareAbrir : String → Transacao2PC → Sistema → Option Voto2PC × Sistema
  decideAbrir : String → Resultado2PC → Sistema → Sistema
  prepareTroca : String → Transacao2PC → Sistema → Option Voto2PC × Sistema
  decideTroca : String → Resultado2PC → Sistema → Sistema

/-- The fault-free network: every request reaches its target node, which runs
the corresponding participant handler (main.py endpoint wrappers) on the shared
state and replies. -/
def redeFiel : Rede :=
  ⟨fun url t sis =>
      let r := participante_prepare_abrir_pacote_logica url t sis
      (some r.1, r.2),
   fun url r sis => participante_commit_abort_abrir_pacote_logica url r sis,
   fun url t sis =>
      let r := participante_prepare_troca_cartas_logica url t sis
      (some r.1, r.2),
   fun url r sis => participante_commit_abort_troca_cartas_logica url r sis⟩

/-- servico_2pc.py line 59: `[url for url in servidores_jogo if url != url_local]`. -/
def outrosServidores (servidores_jogo : List String) (url_local : String) : List String :=
  servidores_jogo.filter (fun u => !(u == url_local))

/-- servico_2pc.py `_finalizar_transacao_generica`, lines 95-118: execute the
decision locally (dispatching on the recorded `tipo_operacao`), push the
decision to every other server over the given endpoint, then drop the
transaction from the local map and the store. -/
def finalizar_transacao_generica (rede : Rede) (servidores_jogo : List String)
    (url_local id_transacao decisao endpoint_commit_abort : String) (sis : Sistema) : Sistema :=
  match transacaoVisivel url_local id_transacao sis with
  | none => sis
  | some transacao =>
    let resultado_local : Resultado2PC := ⟨id_transacao, url_local, decisao⟩
    let sis :=
      if transacao.tipo_operacao = "abrir_pacote" then
        participante_commit_abort_abrir_pacote_logica url_local resultado_local sis
      else if transacao.tipo_operacao = "troca_cartas" then
        participante_commit_abort_troca_cartas_logica url_local resultado_local sis
      else sis
    let sis := (outrosServidores servidores_jogo url_local).foldl
      (fun s servidor_url =>
        if endpoint_commit_abort = "/transacao/abrir_pacote/commit_abort" then
          rede.decideAbrir servidor_url resultado_local s
        else
          rede.decideTroca servidor_url resultado_local s) sis
    let sis := (cachePop url_local id_transacao sis).2
    ⟨remover_transacao id_transacao sis.store, sis.caches, sis.rng⟩

/-- The remote-vote loop of `iniciar_transacao_abertura_pacote` (servico_2pc.py
lines 150-168), carrying the running `votos_commit` tally; on exhaustion the
tally is compared with `len(servidores_jogo)`. -/
def loopVotosRemotosAbrir (rede : Rede) (servidores_jogo : List String)
    (url_local : String) (transacao : Transacao2PC) :
    List String → Nat → Sistema → Bool × Sistema
  | [], votos_commit, sis =>
    if votos_commit = servidores_jogo.length then
      (true, finalizar_transacao_generica rede servidores_jogo url_local
        transacao.id_transacao "GLOBAL_COMMIT" "/transacao/abrir_pacote/commit_abort" sis)
    else
      (false, finalizar_transacao_generica rede servidores_jogo url_local
        transacao.id_transacao "GLOBAL_ABORT" "/transacao/abrir_pacote/commit_abort" sis)
  | servidor_url :: resto, votos_commit, sis =>
    let r := rede.prepareAbrir servidor_url transacao sis
    match r.1 with
    | some v =>
      if v.voto = "VOTE_COMMIT" then
        loopVotosRemotosAbrir rede servidores_jogo url_local transacao resto
          (votos_commit + 1) r.2
      else
        (false, finalizar_transacao_generica rede servidores_jogo url_local
          transacao.id_transacao "GLOBAL_ABORT" "/transacao/abrir_pacote/commit_abort" r.2)
    | none =>
      (false, finalizar_transacao_generica rede servidores_jogo url_local
        transacao.id_transacao "GLOBAL_ABORT" "/transacao/abrir_pacote/commit_abort" r.2)

/-- servico_2pc.py `iniciar_transacao_abertura_pacote`, lines 122-168.  The
fresh `uuid.uuid4()` is a parameter; the payload is always
`{"id_jogador": id_jogador, "quantidade_pacotes": 1}`. -/
def iniciar_transacao_abertura_pacote (rede : Rede) (servidores_jogo : List String)
    (url_local id_jogador id_transacao : String) (sis : Sistema) : Bool × Sistema :=
  let transacao : Transacao2PC :=
    ⟨id_transacao, url_local, "abrir_pacote", "PREPARAR",
     DadosTransacao.abrirPacote id_jogador 1⟩
  let sis := cachePut url_local id_transacao transacao sis
  let sis := ⟨set_transacao transacao sis.store, sis.caches, sis.rng⟩
  let r := participante_prepare_abrir_pacote_logica url_local transacao sis
  if r.1.voto = "VOTE_COMMIT" then
    loopVotosRemotosAbrir rede servidores_jogo url_local transacao
      (outrosServidores servidores_jogo url_local) 1 r.2
  else
    (false, finalizar_transacao_generica rede servidores_jogo url_local id_transacao
      "GLOBAL_ABORT" "/transacao/abrir_pacote/commit_abort" r.2)

/-- The vote loop of `iniciar_transacao_troca_cartas` (servico_2pc.py lines
253-276): every server in list order, the local one through the in-process
handler and the rest through the network. -/
def loopVotosTroca (rede : Rede) (servidores_jogo : List String)
    (url_local : String) (transacao : Transacao2PC) :
    List String → Nat → Sistema → Bool × Sistema
  | [], votos_commit, sis =>
    if votos_commit = servidores_jogo.length then
      (true, finalizar_transacao_generica rede servidores_jogo url_local
        transacao.id_transacao "GLOBAL_COMMIT" "/inventario/troca/commit_abort" sis)
    else
      (false, finalizar_transacao_generica rede servidores_jogo url_local
        transacao.id_transacao "GLOBAL_ABORT" "/inventario/troca/commit_abort" sis)
  | servidor_url :: resto, votos_commit, sis =>
    let r :=
      if servidor_url = url_local then
        let r' := participante_prepare_troca_cartas_logica url_local transacao sis
        (some r'.1, r'.2)
      else rede.prepareTroca servidor_url transacao sis
    match r.1 with
    | some v =>
      if v.voto = "VOTE_COMMIT" then
        loopVotosTroca rede servidores_jogo url_local transacao resto (votos_commit + 1) r.2
      else
        (false, finalizar_transacao_generica rede servidores_jogo url_local
          transacao.id_transacao "GLOBAL_ABORT" "/inventario/troca/commit_abort" r.2)
    | none =>
      (false, finalizar_transacao_generica rede servidores_jogo url_local
        transacao.id_transacao "GLOBAL_ABORT" "/inventario/troca/commit_abort" r.2)

/-- servico_2pc.py `iniciar_transacao_troca_cartas`, lines 236-276
(`participantes_url` is accepted and ignored by the source). -/
def iniciar_transacao_troca_cartas (rede : Rede) (servidores_jogo : List String)
    (url_local : String) (detalhes_troca : DetalhesTroca)
    (participantes_url : List String) (id_transacao : String) (sis : Sistema) :
    Bool × Sistema :=
  let transacao : Transacao2PC :=
    ⟨id_transacao, url_local, "troca_cartas", "PREPARAR",
     DadosTransacao.trocaCartas detalhes_troca⟩
  let sis := cachePut url_local id_transacao transacao sis
  let sis := ⟨set_transacao transacao sis.store, sis.caches, sis.rng⟩
  loopVotosTroca rede servidores_jogo url_local transacao servidores_jogo 0 sis

/-! ### Client-facing endpoints (main.py) -/

/-- Outcome of `POST /pacote/abrir/{id_jogador}`: the success payload or the
`HTTPException` status code. -/
inductive RespostaAbrirPacote where
  | sucesso (inventario_atualizado : Inventario)
  | erroHTTP (status : Nat)
deriving DecidableEq

/-- main.py `abrir_pacote`, lines 110-150: 404 for an unknown player, 400 when
`pacotes_disponiveis <= 0`; otherwise the player's pack is consumed locally, the
2PC runs, and on failure the pack is handed back and a 500 is raised.  (On the
success path the inventory always exists — the commit handler just wrote it —
and a missing one would make the source crash into a 500, embedded likewise.) -/
def abrir_pacote (rede : Rede) (servidores_jogo : List String)
    (url_local id_jogador id_transacao : String) (sis : Sistema) :
    RespostaAbrirPacote × Sistema :=
  match get_inventario id_jogador sis.store with
  | none => (RespostaAbrirPacote.erroHTTP 404, sis)
  | some inventario =>
    if inventario.pacotes_disponiveis ≤ 0 then (RespostaAbrirPacote.erroHTTP 400, sis)
    else
      let inventario_menos : Inventario :=
        ⟨inventario.id_jogador, inventario.cartas, inventario.pacotes_disponiveis - 1⟩
      let sis := ⟨set_inventario inventario_menos sis.store, sis.caches, sis.rng⟩
      let r :=
        iniciar_transacao_abertura_pacote rede servidores_jogo url_local id_jogador
          id_transacao sis
      if r.1 then
        match get_inventario id_jogador r.2.store with
        | some inventario_atualizado =>
          (RespostaAbrirPacote.sucesso inventario_atualizado, r.2)
        | none => (RespostaAbrirPacote.erroHTTP 500, r.2)
      else
        let inventario_devolvido : Inventario :=
          ⟨inventario_menos.id_jogador, inventario_menos.cartas,
           inventario_menos.pacotes_disponiveis + 1⟩
        (RespostaAbrirPacote.erroHTTP 500,
         ⟨set_inventario inventario_devolvido r.2.store, r.2.caches, r.2.rng⟩)

def RespostaAbrirPacote.ehSucesso : RespostaAbrirPacote → Bool
  | RespostaAbrirPacote.sucesso _ => true
  | RespostaAbrirPacote.erroHTTP _ => false

/-- Outcome of `POST /inventario/troca/{a}/{b}`. -/
inductive RespostaTroca where
  | sucesso
  | erroHTTP (status : Nat)
deriving DecidableEq

/-- main.py `iniciar_troca_cartas`, lines 152-183: build the `DetalhesTroca`,
run the 2PC with `SERVIDORES_JOGO` as `participantes_url`, reply 200 on success
and raise 500 otherwise. -/
def iniciar_troca_cartas (rede : Rede) (servidores_jogo : List String)
    (url_local id_jogador_a id_jogador_b id_carta_a id_carta_b id_transacao : String)
    (sis : Sistema) : RespostaTroca × Sistema :=
  let detalhes : DetalhesTroca := ⟨id_jogador_a, id_carta_a, id_jogador_b, id_carta_b⟩
  let r :=
    iniciar_transacao_troca_cartas rede servidores_jogo url_local detalhes
      servidores_jogo id_transacao sis
  if r.1 then (RespostaTroca.sucesso, r.2)
  else (RespostaTroca.erroHTTP 500, r.2)

/-- main.py `entrar_jogador`, lines 84-100: a fresh `uuid.uuid4()` id (passed in
as `id_jogador`), a `Jogador` bound to this node, and — when no inventory exists
under the id — a persisted `Inventario(id_jogador=…, pacotes_disponiveis=1)`
(empty card list).  Returns the pair the endpoint serializes. -/
def entrar_jogador (nome_servidor nome_jogador id_jogador : String) (sis : Sistema) :
    (Jogador × Inventario) × Sistema :=
  let jogador : Jogador := ⟨id_jogador, nome_jogador, nome_servidor⟩
  match get_inventario id_jogador sis.store with
  | some inventario => ((jogador, inventario), sis)
  | none =>
    let inventario : Inventario := ⟨id_jogador, [], 1⟩
    ((jogador, inventario), ⟨set_inventario inventario sis.store, sis.caches, sis.rng⟩)

/-- main.py `udp_listener`, lines 36-54: `sock.recvfrom(1024)` delivers at most
the first 1024 bytes of the incoming datagram (a datagram socket discards the
excess), and `sock.sendto(data, addr)` sends exactly those bytes back. -/
def udp_listener_resposta (datagrama : List Nat) : List Nat :=
  datagrama.take 1024

/-! ### Concrete runs used by the claim theorems -/

/-- A concrete ambient random stream (all draws equal to `n`). -/
def rngConst (n : Nat) : GeradorAleatorio := ⟨fun _ => n, 0⟩

/-- Two-node run for C1: shared store with the initial stock of 50, one player
`"p1"` on node `"s1"` holding the initial pack, both caches empty. -/
def sisC1 : Sistema := ⟨⟨⟨50⟩, [("p1", ⟨"p1", [], 1⟩)], []⟩, [], rngConst 0⟩

/-- One committed `open_pack` issued at `"s1"` of the two-node deployment
`["s1", "s2"]` with a fault-free network. -/
def execC1 : RespostaAbrirPacote × Sistema :=
  abrir_pacote redeFiel ["s1", "s2"] "s1" "p1" "t1" sisC1

/-- Single-node run for C2: stock already exhausted (0), player `"p2"` holds
the initial pack. -/
def sisC2 : Sistema := ⟨⟨⟨0⟩, [("p2", ⟨"p2", [], 1⟩)], []⟩, [], rngConst 0⟩

/-- One aborted `open_pack` issued at `"s1"` of the one-node deployment
`["s1"]` with a fault-free network. -/
def execC2 : RespostaAbrirPacote × Sistema :=
  abrir_pacote redeFiel ["s1"] "s1" "p2" "t2" sisC2

/-- The `open_pack` transaction record used by the C7 runs. -/
def txC7 : Transacao2PC :=
  ⟨"t7", "s1", "abrir_pacote", "PREPARAR", DadosTransacao.abrirPacote "p7" 1⟩

/-- A state holding `txC7` and an empty inventory for `"p7"`, with the ambient
random stream drawing the constant `n`.  The two states `sisC7 0` and `sisC7 1`
agree on everything the transaction mentions — same `tx_id`, same store — and
differ only in the ambient stream. -/
def sisC7 (n : Nat) : Sistema :=
  ⟨⟨⟨50⟩, [("p7", ⟨"p7", [], 0⟩)], [("t7", txC7)]⟩, [], rngConst n⟩

/-- Concrete cards for the C5 runs. -/
def cartaA : Carta := ⟨"ca", "Pedra (Seixo de Rio)", "pedra", "Seixo de Rio", "Comum"⟩

def cartaB : Carta := ⟨"cb", "Papel (Papiro Antigo)", "papel", "Papiro Antigo", "Comum"⟩

/-- A `trade_cards` transaction in which player `"p5"` trades with themself:
card `"ca"` for card `"cb"`, both in the same inventory. -/
def txC5 : Transacao2PC :=
  ⟨"t5", "s1", "troca_cartas", "PREPARAR",
   DadosTransacao.trocaCartas ⟨"p5", "ca", "p5", "cb"⟩⟩

def sisC5 : Sistema :=
  ⟨⟨⟨50⟩, [("p5", ⟨"p5", [cartaA, cartaB], 0⟩)], [("t5", txC5)]⟩, [], rngConst 0⟩

/-- The state after the commit handler processes GLOBAL_COMMIT for `txC5`. -/
def execC5 : Sistema :=
  participante_commit_abort_troca_cartas_logica "s1" ⟨"t5", "s1", "GLOBAL_COMMIT"⟩ sisC5

/-- A cross-player trade used as the witness run for the amended C5: `"pa"`
holds card `"ca"`, `"pb"` holds card `"cb"`. -/
def txC5b : Transacao2PC :=
  ⟨"t5b", "s1", "troca_cartas", "PREPARAR",
   DadosTransacao.trocaCartas ⟨"pa", "ca", "pb", "cb"⟩⟩

def sisC5b : Sistema :=
  ⟨⟨⟨50⟩, [("pa", ⟨"pa", [cartaA], 0⟩), ("pb", ⟨"pb", [cartaB], 0⟩)],
    [("t5b", txC5b)]⟩, [], rngConst 0⟩

/-- Spec-side characterization for C4 ("every remote prepare yields
`VOTE_COMMIT`"): walking the remote list in order, each `_enviar_prepare`
returns a 200 reply carrying a `VOTE_COMMIT` vote, threading the state. -/
def respostasRemotasTodasCommit (rede : Rede) (transacao : Transacao2PC) :
    List String → Sistema → Prop
  | [], _ => True
  | servidor_url :: resto, sis =>
    match (rede.prepareAbrir servidor_url transacao sis).1 with
    | some v => v.voto = "VOTE_COMMIT" ∧
        respostasRemotasTodasCommit rede transacao resto
          (rede.prepareAbrir servidor_url transacao sis).2
    | none => False

/-- The empty-store system used by several witnesses. -/
def sisVazio : Sistema := ⟨⟨⟨50⟩, [], []⟩, [], rngConst 0⟩

/-- The transaction and state for the C6 witness run. -/
def txC6 : Transacao2PC :=
  ⟨"t6", "s1", "abrir_pacote", "PREPARAR", DadosTransacao.abrirPacote "p6" 1⟩

def sisC6 : Sistema :=
  ⟨⟨⟨50⟩, [("p6", ⟨"p6", [], 0⟩)], [("t6", txC6)]⟩, [], rngConst 0⟩

/-- State for the C8 witness run: player `"pa8"` exists but owns no cards at
all, so the requested `"cax"` is certainly absent. -/
def sisC8 : Sistema := ⟨⟨⟨50⟩, [("pa8", ⟨"pa8", [], 0⟩)], []⟩, [], rngConst 0⟩

/-- The packs a player currently has (0 when no inventory exists — a missing
inventory holds no packs). -/
def pacotesDe (id_jogador : String) (s : Store) : Int :=
  match get_inventario id_jogador s with
  | some inv => inv.pacotes_disponiveis
  | none => 0

/-- Every inventory sits under its own player's key (true of everything the
source ever writes: `set_inventario` keys by `inventario.id_jogador`). -/
def InventariosBemFormados (s : Store) : Prop :=
  ∀ k inv, getKV k s.inventarios = some inv → inv.id_jogador = k

theorem getKV_setKV_self (k : String) (v : α) (l : List (String × α)) :
    getKV k (setKV k v l) = some v := by
  induction l with
  | nil => simp [getKV, setKV]
  | cons kv resto ih =>
    by_cases h : kv.1 = k <;> simp [getKV, setKV, h, ih]

theorem getKV_setKV_ne (k k' : String) (v : α) (l : List (String × α)) (h : k' ≠ k) :
    getKV k (setKV k' v l) = getKV k l := by
  induction l with
  | nil => simp [getKV, setKV, h]
  | cons kv resto ih =>
    obtain ⟨k0, v0⟩ := kv
    by_cases h2 : k0 = k'
    · subst h2
      simp [getKV, setKV, h]
    · by_cases h3 : k0 = k <;> simp [getKV, setKV, h2, h3, ih, Ne.symm h]

theorem getKV_delKV_self (k : String) (l : List (String × α)) :
    getKV k (delKV k l) = none := by
  induction l with
  | nil => simp [getKV, delKV]
  | cons kv resto ih =>
    by_cases h : kv.1 = k <;> simp [getKV, delKV, h, ih]

theorem getKV_delKV_ne (k k' : String) (l : List (String × α)) (h : k' ≠ k) :
    getKV k (delKV k' l) = getKV k l := by
  induction l with
  | nil => simp [getKV, delKV]
  | cons kv resto ih =>
    obtain ⟨k0, v0⟩ := kv
    by_cases h2 : k0 = k'
    · subst h2
      simp [getKV, delKV, h, ih]
    · by_cases h3 : k0 = k <;> simp [getKV, delKV, h2, h3, ih, Ne.symm h]

theorem delKV_of_getKV_none (k : String) (l : List (String × α)) (h : getKV k l = none) :
    delKV k l = l := by
  induction l with
  | nil => simp [delKV]
  | cons kv resto ih =>
    by_cases h2 : kv.1 = k
    · simp [getKV, h2] at h
    · simp [getKV, h2] at h
      simp [delKV, h2, ih h]

theorem setKV_of_getKV_some (k : String) (v : α) (l : List (String × α))
    (h : getKV k l = some v) : setKV k v l = l := by
  induction l with
  | nil => simp [getKV] at h
  | cons kv resto ih =>
    obtain ⟨k0, v0⟩ := kv
    by_cases h2 : k0 = k
    · subst h2
      simp [getKV] at h
      simp [setKV, h]
    · simp [getKV, h2] at h
      simp [setKV, h2, ih h]

/-- C1.  The claim says a committed `open_pack` of quantity q decreases the
global stock by exactly q, so the final stock is initial − successes.  In the
run `execC1` (two nodes, shared store, initial stock 50) the single committed
transaction is reported as a success to the client, yet the final stock is 48,
not 50 − 1 = 49: every participant's prepare decrements the one shared
`estoque_global`, so a commit costs N·q packs on an N-node deployment.  The
repository's own test (teste_concorrencia.py lines 142-143) asserts
`estoque_final == estoque_inicial - sucessos`, which this run violates. -/
theorem c1_oversell_contabilidade_quebrada :
    execC1.1.ehSucesso = true ∧
    execC1.2.store.estoque.pacotes_restantes = 48 ∧
    ¬ execC1.2.store.estoque.pacotes_restantes = 50 - 1 := by
  refine ⟨by decide, by decide, by decide⟩

/-- C2.  The claim says that after a GLOBAL_ABORT the global stock equals its
value when the transaction started (participants release exactly what they
reserved).  In the run `execC2` the stock is 0, so the coordinator's own
prepare fails and reserves nothing, the transaction is aborted — and the abort
handler still runs `incrementar_estoque_atomico(1)`, leaving the stock at 1
instead of 0.  teste_concorrencia.py line 208 asserts the stock is unchanged by
an aborted attempt, which this run violates. -/
theorem c2_abort_restaura_demais :
    execC2.1 = RespostaAbrirPacote.erroHTTP 500 ∧
    execC2.2.store.estoque.pacotes_restantes = 1 ∧
    ¬ execC2.2.store.estoque.pacotes_restantes = 0 := by
  refine ⟨by decide, by decide, by decide⟩

/-- C3.  `decrementar_estoque_atomico` returns `true` exactly when the current
`pacotes_restantes` is at least the requested quantity; on `true` the stock is
decreased by exactly that quantity, on `false` it is left untouched — never a
partial update.  (The WATCH/MULTI/EXEC retry loop is embedded as its linearized
outcome.) -/
theorem c3_decrementar_estoque_contrato (quantidade : Int) (s : Store) :
    decrementar_estoque_atomico quantidade s =
      (decide (quantidade ≤ s.estoque.pacotes_restantes),
       if quantidade ≤ s.estoque.pacotes_restantes then
         set_estoque_global ⟨s.estoque.pacotes_restantes - quantidade⟩ s
       else s) := by
  unfold decrementar_estoque_atomico
  by_cases h : s.estoque.pacotes_restantes < quantidade
  · simp [h, not_le.mpr h]
  · simp [h, not_lt.mp h]

/-- C9, counterexample.  The claim says every datagram is echoed back with
identical bytes, for any payload.  `sock.recvfrom(1024)` only reads the first
1024 bytes of a datagram and the rest is discarded, so a 1025-byte datagram is
echoed truncated, not verbatim. -/
theorem c9_counterexample :
    udp_listener_resposta (List.replicate 1025 0) ≠ List.replicate 1025 0 := by
  intro h
  have hlen := congrArg List.length h
  simp only [udp_listener_resposta, List.length_take, List.length_replicate] at hlen
  exact absurd hlen (by decide)

/-- C9, amended: the UDP listener echoes a received datagram back to its sender
verbatim whenever the datagram carries at most 1024 bytes (the `recvfrom`
buffer size); longer datagrams are echoed truncated to their first 1024 bytes. -/
theorem c9_eco_verbatim_ate_1024 (datagrama : List Nat)
    (h : datagrama.length ≤ 1024) :
    udp_listener_resposta datagrama = datagrama := by
  unfold udp_listener_resposta
  exact List.take_of_length_le h

/-- Witness for `c9_eco_verbatim_ate_1024` at the probe payload `PING:<t0>`
(its bytes). -/
theorem c9_eco_verbatim_ate_1024_witness :
    ([80, 73, 78, 71, 58, 48] : List Nat).length ≤ 1024 ∧
      udp_listener_resposta [80, 73, 78, 71, 58, 48] = [80, 73, 78, 71, 58, 48] :=
  ⟨by decide, c9_eco_verbatim_ate_1024 [80, 73, 78, 71, 58, 48] (by decide)⟩

/-- C7, counterexample.  The claim says the cards minted by a commit are a
deterministic function of the transaction's `tx_id`.  Delivering the very same
GLOBAL_COMMIT for the very same transaction from two states that differ only in
the ambient random stream yields different inventories (`CARTA-1000 / Pedra`
versus `CARTA-1001 / Papel`): `gerar_carta` draws from the unseeded `random`
module and never looks at the `tx_id`. -/
theorem c7_counterexample :
    get_inventario "p7"
        (participante_commit_abort_abrir_pacote_logica "s1"
          ⟨"t7", "s1", "GLOBAL_COMMIT"⟩ (sisC7 0)).store ≠
      get_inventario "p7"
        (participante_commit_abort_abrir_pacote_logica "s1"
          ⟨"t7", "s1", "GLOBAL_COMMIT"⟩ (sisC7 1)).store := by
  decide

/-- C7, amended: the minted cards are a function of the ambient random stream,
not of `tx_id`; each execution of the commit step appends exactly 3 cards
(the source opens `quantity × 3` cards only in the sense that `quantidade`
is hard-wired to 1 and `simular_abertura_pacote` always returns 3) to the
target player's inventory, leaving its pack count unchanged. -/
theorem c7_commit_adiciona_tres_cartas_da_rng (url : String) (resultado : Resultado2PC)
    (sis : Sistema) (t : Transacao2PC) (id_jogador : String) (quantidade : Int)
    (htx : transacaoVisivel url resultado.id_transacao sis = some t)
    (hd : t.dados = DadosTransacao.abrirPacote id_jogador quantidade)
    (hdec : resultado.decisao = "GLOBAL_COMMIT")
    (hwf : ∀ inv, get_inventario id_jogador sis.store = some inv →
      inv.id_jogador = id_jogador) :
    get_inventario id_jogador
        (participante_commit_abort_abrir_pacote_logica url resultado sis).store =
      some ⟨((get_inventario id_jogador sis.store).getD ⟨id_jogador, [], 0⟩).id_jogador,
            ((get_inventario id_jogador sis.store).getD ⟨id_jogador, [], 0⟩).cartas ++
              (simular_abertura_pacote id_jogador sis.rng).1,
            ((get_inventario id_jogador sis.store).getD
              ⟨id_jogador, [], 0⟩).pacotes_disponiveis⟩ ∧
    (simular_abertura_pacote id_jogador sis.rng).1.length = 3 := by
  obtain ⟨tid, tco, topo, tst, tda⟩ := t
  simp only [Transacao2PC.dados] at hd
  subst hd
  constructor
  · simp only [participante_commit_abort_abrir_pacote_logica, htx, hdec, cachePop,
      if_pos rfl]
    rcases hg : get_inventario id_jogador sis.store with _ | inv
    · simp only [hg, Option.getD, get_inventario, remover_transacao, set_inventario]
      exact getKV_setKV_self _ _ _
    · have hid := hwf inv hg
      simp only [hg, Option.getD, get_inventario, remover_transacao, set_inventario, hid]
      exact getKV_setKV_self _ _ _
  · rfl

/-- Witness for `c7_commit_adiciona_tres_cartas_da_rng` at the `sisC7 0` run. -/
theorem c7_commit_adiciona_tres_cartas_da_rng_witness :
    transacaoVisivel "s1" "t7" (sisC7 0) = some txC7 ∧
    (get_inventario "p7"
        (participante_commit_abort_abrir_pacote_logica "s1"
          ⟨"t7", "s1", "GLOBAL_COMMIT"⟩ (sisC7 0)).store =
      some ⟨((get_inventario "p7" (sisC7 0).store).getD ⟨"p7", [], 0⟩).id_jogador,
            ((get_inventario "p7" (sisC7 0).store).getD ⟨"p7", [], 0⟩).cartas ++
              (simular_abertura_pacote "p7" (sisC7 0).rng).1,
            ((get_inventario "p7" (sisC7 0).store).getD
              ⟨"p7", [], 0⟩).pacotes_disponiveis⟩ ∧
     (simular_abertura_pacote "p7" (sisC7 0).rng).1.length = 3) :=
  ⟨rfl, c7_commit_adiciona_tres_cartas_da_rng "s1" ⟨"t7", "s1", "GLOBAL_COMMIT"⟩
    (sisC7 0) txC7 "p7" 1 rfl rfl rfl
    (fun inv h => by
      have h' : some (⟨"p7", [], 0⟩ : Inventario) = some inv := h
      cases h'
      rfl)⟩

/-- C5, counterexample.  The claim quantifies over every `trade_cards`
transaction: the commit handler applies the full swap or writes neither
inventory.  When both inventories belong to the same player (`txC5`), the two
legs are computed from the same pre-state and the second `set_inventario`
overwrites the first: the final inventory of `"p5"` is `[cartaA, cartaA]` —
card B is destroyed and card A duplicated — which is neither "no write" (the
inventories changed) nor the full swap (a full swap would leave card B owned,
it was to be inserted into inventory A). -/
theorem c5_counterexample :
    ¬ (execC5.store.inventarios = sisC5.store.inventarios ∨
       ∀ inv, get_inventario "p5" execC5.store = some inv → cartaB ∈ inv.cartas) := by
  intro h
  rcases h with h | h
  · exact absurd h (by decide)
  · exact absurd (h ⟨"p5", [cartaA, cartaA], 0⟩ (by decide)) (by decide)

/-- C5, amended: for every `trade_cards` transaction between two DISTINCT
players, the commit handler is all-or-nothing — either both inventories are
rewritten with the swapped cards (and every other inventory is untouched), or
the inventory table is left exactly as it was. -/
theorem c5_troca_atomica_jogadores_distintos (url : String) (resultado : Resultado2PC)
    (sis : Sistema) (t : Transacao2PC) (detalhes : DetalhesTroca)
    (htx : transacaoVisivel url resultado.id_transacao sis = some t)
    (hd : t.dados = DadosTransacao.trocaCartas detalhes)
    (hab : detalhes.id_jogador_a ≠ detalhes.id_jogador_b)
    (hdec : resultado.decisao = "GLOBAL_COMMIT")
    (hwa : ∀ inv, get_inventario detalhes.id_jogador_a sis.store = some inv →
      inv.id_jogador = detalhes.id_jogador_a)
    (hwb : ∀ inv, get_inventario detalhes.id_jogador_b sis.store = some inv →
      inv.id_jogador = detalhes.id_jogador_b) :
    (∃ inventario_a inventario_b carta_a carta_b,
      get_inventario detalhes.id_jogador_a sis.store = some inventario_a ∧
      get_inventario detalhes.id_jogador_b sis.store = some inventario_b ∧
      inventario_a.cartas.find? (fun c => c.id_carta == detalhes.id_carta_a) =
        some carta_a ∧
      inventario_b.cartas.find? (fun c => c.id_carta == detalhes.id_carta_b) =
        some carta_b ∧
      get_inventario detalhes.id_jogador_a
          (participante_commit_abort_troca_cartas_logica url resultado sis).store =
        some ⟨inventario_a.id_jogador, inventario_a.cartas.erase carta_a ++ [carta_b],
              inventario_a.pacotes_disponiveis⟩ ∧
      get_inventario detalhes.id_jogador_b
          (participante_commit_abort_troca_cartas_logica url resultado sis).store =
        some ⟨inventario_b.id_jogador, inventario_b.cartas.erase carta_b ++ [carta_a],
              inventario_b.pacotes_disponiveis⟩ ∧
      ∀ p, p ≠ detalhes.id_jogador_a → p ≠ detalhes.id_jogador_b →
        get_inventario p
            (participante_commit_abort_troca_cartas_logica url resultado sis).store =
          get_inventario p sis.store) ∨
    (participante_commit_abort_troca_cartas_logica url resultado sis).store.inventarios =
      sis.store.inventarios := by
  obtain ⟨tid, tco, topo, tst, tda⟩ := t
  simp only [Transacao2PC.dados] at hd
  subst hd
  simp only [participante_commit_abort_troca_cartas_logica, htx, hdec, cachePop,
    if_pos rfl]
  rcases hga : get_inventario detalhes.id_jogador_a sis.store with _ | inventario_a
  · right
    simp [hga, remover_transacao]
  · rcases hgb : get_inventario detalhes.id_jogador_b sis.store with _ | inventario_b
    · right
      simp [hga, hgb, remover_transacao]
    · rcases hfa : inventario_a.cartas.find? (fun c => c.id_carta == detalhes.id_carta_a)
        with _ | carta_a
      · right
        simp [hga, hgb, hfa, remover_transacao]
      · rcases hfb : inventario_b.cartas.find? (fun c => c.id_carta == detalhes.id_carta_b)
          with _ | carta_b
        · right
          simp [hga, hgb, hfa, hfb, remover_transacao]
        · left
          refine ⟨inventario_a, inventario_b, carta_a, carta_b, rfl, rfl, hfa, hfb,
            ?_, ?_, ?_⟩
          · simp only [hfa, hfb, get_inventario, remover_transacao, set_inventario,
              if_true, hwa inventario_a hga, hwb inventario_b hgb]
            rw [getKV_setKV_ne _ _ _ _ (Ne.symm hab)]
            exact getKV_setKV_self _ _ _
          · simp only [hfa, hfb, get_inventario, remover_transacao, set_inventario,
              if_true, hwa inventario_a hga, hwb inventario_b hgb]
            exact getKV_setKV_self _ _ _
          · intro p hpa hpb
            simp only [hfa, hfb, get_inventario, remover_transacao, set_inventario,
              if_true, hwa inventario_a hga, hwb inventario_b hgb]
            rw [getKV_setKV_ne _ _ _ _ (Ne.symm hpb), getKV_setKV_ne _ _ _ _ (Ne.symm hpa)]

/-- Witness for `c5_troca_atomica_jogadores_distintos` at the cross-player run
`sisC5b`. -/
theorem c5_troca_atomica_jogadores_distintos_witness :
    transacaoVisivel "s1" "t5b" sisC5b = some txC5b ∧
    (("pa" : String) ≠ "pb") ∧
    ((∃ inventario_a inventario_b carta_a carta_b,
      get_inventario "pa" sisC5b.store = some inventario_a ∧
      get_inventario "pb" sisC5b.store = some inventario_b ∧
      inventario_a.cartas.find? (fun c => c.id_carta == "ca") = some carta_a ∧
      inventario_b.cartas.find? (fun c => c.id_carta == "cb") = some carta_b ∧
      get_inventario "pa"
          (participante_commit_abort_troca_cartas_logica "s1"
            ⟨"t5b", "s1", "GLOBAL_COMMIT"⟩ sisC5b).store =
        some ⟨inventario_a.id_jogador, inventario_a.cartas.erase carta_a ++ [carta_b],
              inventario_a.pacotes_disponiveis⟩ ∧
      get_inventario "pb"
          (participante_commit_abort_troca_cartas_logica "s1"
            ⟨"t5b", "s1", "GLOBAL_COMMIT"⟩ sisC5b).store =
        some ⟨inventario_b.id_jogador, inventario_b.cartas.erase carta_b ++ [carta_a],
              inventario_b.pacotes_disponiveis⟩ ∧
      ∀ p, p ≠ "pa" → p ≠ "pb" →
        get_inventario p
            (participante_commit_abort_troca_cartas_logica "s1"
              ⟨"t5b", "s1", "GLOBAL_COMMIT"⟩ sisC5b).store =
          get_inventario p sisC5b.store) ∨
     (participante_commit_abort_troca_cartas_logica "s1"
        ⟨"t5b", "s1", "GLOBAL_COMMIT"⟩ sisC5b).store.inventarios =
       sisC5b.store.inventarios) :=
  ⟨rfl, by decide,
   c5_troca_atomica_jogadores_distintos "s1" ⟨"t5b", "s1", "GLOBAL_COMMIT"⟩ sisC5b
     txC5b ⟨"pa", "ca", "pb", "cb"⟩ rfl rfl (by decide) rfl
     (fun inv h => by
       have h' : some (⟨"pa", [cartaA], 0⟩ : Inventario) = some inv := h
       cases h'
       rfl)
     (fun inv h => by
       have h' : some (⟨"pb", [cartaB], 0⟩ : Inventario) = some inv := h
       cases h'
       rfl)⟩

theorem loopVotosRemotosAbrir_spec (rede : Rede) (servidores_jogo : List String)
    (url_local : String) (transacao : Transacao2PC) :
    ∀ (resto : List String) (votos_commit : Nat) (sis : Sistema),
    (loopVotosRemotosAbrir rede servidores_jogo url_local transacao resto
        votos_commit sis).1 = true ↔
      (respostasRemotasTodasCommit rede transacao resto sis ∧
        votos_commit + resto.length = servidores_jogo.length) := by
  intro resto
  induction resto with
  | nil =>
    intro votos_commit sis
    by_cases h : votos_commit = servidores_jogo.length <;>
      simp [loopVotosRemotosAbrir, respostasRemotasTodasCommit, h]
  | cons servidor_url resto ih =>
    intro votos_commit sis
    simp only [loopVotosRemotosAbrir, respostasRemotasTodasCommit]
    rcases h : (rede.prepareAbrir servidor_url transacao sis).1 with _ | v
    · simp
    · by_cases hv : v.voto = "VOTE_COMMIT"
      · simp only [hv, if_true, ih, List.length_cons]
        constructor
        · rintro ⟨h1, h2⟩
          exact ⟨⟨trivial, h1⟩, by omega⟩
        · rintro ⟨⟨_, h1⟩, h2⟩
          exact ⟨h1, by omega⟩
      · simp [hv]

theorem filtro_completo_of_count_zero (l : List String) (x : String)
    (h : l.count x = 0) : l.filter (fun u => !(u == x)) = l := by
  induction l with
  | nil => rfl
  | cons a l ih =>
    rw [List.count_cons] at h
    by_cases ha : a = x
    · simp [ha] at h
    · have hl : l.count x = 0 := by
        simp [ha] at h
        omega
      simp [List.filter_cons, ha, ih hl]

theorem outros_length_of_count_one (l : List String) (x : String)
    (h : l.count x = 1) : (outrosServidores l x).length + 1 = l.length := by
  induction l with
  | nil => simp [List.count_nil] at h
  | cons a l ih =>
    rw [List.count_cons] at h
    by_cases ha : a = x
    · subst ha
      have hl : l.count a = 0 := by
        simp at h
        omega
      simp [outrosServidores, List.filter_cons, filtro_completo_of_count_zero l a hl]
    · have hl : l.count x = 1 := by
        simp [ha] at h
        omega
      have := ih hl
      simp only [outrosServidores, List.filter_cons] at this ⊢
      simp [ha, this]

/-- C4.  With the local URL appearing exactly once in `SERVIDORES_JOGO`, the
`open_pack` coordinator returns `True` (after broadcasting GLOBAL_COMMIT) if
and only if the local prepare votes `VOTE_COMMIT` and every remote prepare
comes back as a 200 reply carrying `VOTE_COMMIT`; a missing reply (`none`:
request exception or non-200) or an explicit `VOTE_ABORT` anywhere yields
`False` (GLOBAL_ABORT). -/
theorem c4_commit_sse_votos_unanimes (rede : Rede) (servidores_jogo : List String)
    (url_local id_jogador id_transacao : String) (sis : Sistema)
    (h : servidores_jogo.count url_local = 1) :
    (iniciar_transacao_abertura_pacote rede servidores_jogo url_local id_jogador
        id_transacao sis).1 = true ↔
      (let transacao : Transacao2PC :=
        ⟨id_transacao, url_local, "abrir_pacote", "PREPARAR",
         DadosTransacao.abrirPacote id_jogador 1⟩
       let sis1 : Sistema := cachePut url_local id_transacao transacao sis
       let sis2 : Sistema := ⟨set_transacao transacao sis1.store, sis1.caches, sis1.rng⟩
       let rp := participante_prepare_abrir_pacote_logica url_local transacao sis2
       rp.1.voto = "VOTE_COMMIT" ∧
         respostasRemotasTodasCommit rede transacao
           (outrosServidores servidores_jogo url_local) rp.2) := by
  have hlen := outros_length_of_count_one servidores_jogo url_local h
  simp only [iniciar_transacao_abertura_pacote]
  by_cases hv : (participante_prepare_abrir_pacote_logica url_local
      ⟨id_transacao, url_local, "abrir_pacote", "PREPARAR",
       DadosTransacao.abrirPacote id_jogador 1⟩
      ⟨set_transacao ⟨id_transacao, url_local, "abrir_pacote", "PREPARAR",
         DadosTransacao.abrirPacote id_jogador 1⟩
        (cachePut url_local id_transacao
          ⟨id_transacao, url_local, "abrir_pacote", "PREPARAR",
           DadosTransacao.abrirPacote id_jogador 1⟩ sis).store,
       (cachePut url_local id_transacao
          ⟨id_transacao, url_local, "abrir_pacote", "PREPARAR",
           DadosTransacao.abrirPacote id_jogador 1⟩ sis).caches,
       (cachePut url_local id_transacao
          ⟨id_transacao, url_local, "abrir_pacote", "PREPARAR",
           DadosTransacao.abrirPacote id_jogador 1⟩ sis).rng⟩).1.voto = "VOTE_COMMIT"
  · simp only [hv, if_true, loopVotosRemotosAbrir_spec, true_and]
    constructor
    · rintro ⟨h1, _⟩
      exact h1
    · intro h1
      exact ⟨h1, by omega⟩
  · simp [hv]

/-- Witness for `c4_commit_sse_votos_unanimes` on the one-node deployment. -/
theorem c4_commit_sse_votos_unanimes_witness :
    (["s1"].count "s1" = 1) ∧
    ((iniciar_transacao_abertura_pacote redeFiel ["s1"] "s1" "pw" "tw" sisVazio).1 =
        true ↔
      (let transacao : Transacao2PC :=
        ⟨"tw", "s1", "abrir_pacote", "PREPARAR", DadosTransacao.abrirPacote "pw" 1⟩
       let sis1 : Sistema := cachePut "s1" "tw" transacao sisVazio
       let sis2 : Sistema := ⟨set_transacao transacao sis1.store, sis1.caches, sis1.rng⟩
       let rp := participante_prepare_abrir_pacote_logica "s1" transacao sis2
       rp.1.voto = "VOTE_COMMIT" ∧
         respostasRemotasTodasCommit redeFiel transacao
           (outrosServidores ["s1"] "s1") rp.2)) :=
  ⟨by decide,
   c4_commit_sse_votos_unanimes redeFiel ["s1"] "s1" "pw" "tw" sisVazio (by decide)⟩

theorem cachePop_noop (url id_transacao : String) (sis : Sistema)
    (c : List (String × Transacao2PC))
    (h1 : getKV url sis.caches = some c) (h2 : getKV id_transacao c = none) :
    (cachePop url id_transacao sis).2 = sis := by
  simp only [cachePop, cacheDe, h1, Option.getD_some]
  rw [delKV_of_getKV_none _ _ h2, setKV_of_getKV_some _ _ _ h1]

/-- If a transaction record is visible neither in the participant's dict nor
(as an `abrir_pacote` payload) in the store, the `abrir_pacote` decide handler
leaves the system untouched. -/
theorem decide_abrir_noop (url : String) (resultado : Resultado2PC) (R : Sistema)
    (X : List (String × Transacao2PC))
    (hX : getKV url R.caches = some X)
    (hid : getKV resultado.id_transacao X = none)
    (hstore : ∀ t, get_transacao resultado.id_transacao R.store = some t →
      ∃ d, t.dados = DadosTransacao.trocaCartas d) :
    participante_commit_abort_abrir_pacote_logica url resultado R = R := by
  have hc : cacheDe url R = X := by simp [cacheDe, hX]
  have hpop : (cachePop url resultado.id_transacao R).2 = R :=
    cachePop_noop _ _ _ _ hX hid
  simp only [participante_commit_abort_abrir_pacote_logica, transacaoVisivel, hc, hid]
  rcases hg : get_transacao resultado.id_transacao R.store with _ | t
  · simpa [hg] using hpop
  · obtain ⟨d, hd⟩ := hstore t hg
    simpa [hg, hd] using hpop

/-- Mirror image of `decide_abrir_noop` for the `troca_cartas` decide handler. -/
theorem decide_troca_noop (url : String) (resultado : Resultado2PC) (R : Sistema)
    (X : List (String × Transacao2PC))
    (hX : getKV url R.caches = some X)
    (hid : getKV resultado.id_transacao X = none)
    (hstore : ∀ t, get_transacao resultado.id_transacao R.store = some t →
      ∃ j q, t.dados = DadosTransacao.abrirPacote j q) :
    participante_commit_abort_troca_cartas_logica url resultado R = R := by
  have hc : cacheDe url R = X := by simp [cacheDe, hX]
  have hpop : (cachePop url resultado.id_transacao R).2 = R :=
    cachePop_noop _ _ _ _ hX hid
  simp only [participante_commit_abort_troca_cartas_logica, transacaoVisivel, hc, hid]
  rcases hg : get_transacao resultado.id_transacao R.store with _ | t
  · simpa [hg] using hpop
  · obtain ⟨j, q, hd⟩ := hstore t hg
    simpa [hg, hd] using hpop

theorem transacaoVisivel_none (url id_transacao : String) (sis : Sistema)
    (h : transacaoVisivel url id_transacao sis = none) :
    get_transacao id_transacao sis.store = none := by
  unfold transacaoVisivel at h
  rcases hc : getKV id_transacao (cacheDe url sis) with _ | t
  · simpa [hc] using h
  · simp [hc] at h

/-- After one run of the `abrir_pacote` decide handler the participant's dict
no longer holds the transaction, and the store either no longer holds it or
was left untouched because the visible record carried a trade payload. -/
theorem decide_abrir_pos (url : String) (resultado : Resultado2PC) (sis : Sistema) :
    (participante_commit_abort_abrir_pacote_logica url resultado sis).caches =
      setKV url (delKV resultado.id_transacao (cacheDe url sis)) sis.caches ∧
    (get_transacao resultado.id_transacao
        (participante_commit_abort_abrir_pacote_logica url resultado sis).store = none ∨
      ((participante_commit_abort_abrir_pacote_logica url resultado sis).store =
          sis.store ∧
        ∃ t d, transacaoVisivel url resultado.id_transacao sis = some t ∧
          t.dados = DadosTransacao.trocaCartas d)) := by
  rcases hvis : transacaoVisivel url resultado.id_transacao sis with _ | t
  · have hg := transacaoVisivel_none url resultado.id_transacao sis hvis
    simp only [participante_commit_abort_abrir_pacote_logica, hvis, cachePop]
    exact ⟨by trivial, Or.inl hg⟩
  · obtain ⟨tid, tco, topo, tst, tda⟩ := t
    rcases tda with ⟨j, q⟩ | d
    · by_cases h1 : resultado.decisao = "GLOBAL_COMMIT"
      · simp only [participante_commit_abort_abrir_pacote_logica, hvis, cachePop, h1,
          if_true]
        exact ⟨by trivial, Or.inl (getKV_delKV_self _ _)⟩
      · by_cases h2 : resultado.decisao = "GLOBAL_ABORT"
        · simp only [participante_commit_abort_abrir_pacote_logica, hvis, cachePop, h1,
            h2, if_false, if_true]
          exact ⟨by trivial, Or.inl (getKV_delKV_self _ _)⟩
        · simp only [participante_commit_abort_abrir_pacote_logica, hvis, cachePop, h1,
            h2, if_false]
          exact ⟨by trivial, Or.inl (getKV_delKV_self _ _)⟩
    · simp only [participante_commit_abort_abrir_pacote_logica, hvis, cachePop]
      exact ⟨by trivial, Or.inr ⟨by trivial, _, d, by trivial, by trivial⟩⟩

/-- Mirror image of `decide_abrir_pos` for the `troca_cartas` decide handler. -/
theorem decide_troca_pos (url : String) (resultado : Resultado2PC) (sis : Sistema) :
    (participante_commit_abort_troca_cartas_logica url resultado sis).caches =
      setKV url (delKV resultado.id_transacao (cacheDe url sis)) sis.caches ∧
    (get_transacao resultado.id_transacao
        (participante_commit_abort_troca_cartas_logica url resultado sis).store = none ∨
      ((participante_commit_abort_troca_cartas_logica url resultado sis).store =
          sis.store ∧
        ∃ t j q, transacaoVisivel url resultado.id_transacao sis = some t ∧
          t.dados = DadosTransacao.abrirPacote j q)) := by
  rcases hvis : transacaoVisivel url resultado.id_transacao sis with _ | t
  · have hg := transacaoVisivel_none url resultado.id_transacao sis hvis
    simp only [participante_commit_abort_troca_cartas_logica, hvis, cachePop]
    exact ⟨by trivial, Or.inl hg⟩
  · obtain ⟨tid, tco, topo, tst, tda⟩ := t
    rcases tda with ⟨j, q⟩ | d
    · simp only [participante_commit_abort_troca_cartas_logica, hvis, cachePop]
      exact ⟨by trivial, Or.inr ⟨by trivial, _, j, q, by trivial, by trivial⟩⟩
    · by_cases h1 : resultado.decisao = "GLOBAL_COMMIT"
      · simp only [participante_commit_abort_troca_cartas_logica, hvis, cachePop, h1,
          if_true]
        refine ⟨?_, Or.inl ?_⟩
        · split
          · split
            · rfl
            · rfl
          · rfl
        · simp only [get_transacao, remover_transacao]
          exact getKV_delKV_self _ _
      · simp only [participante_commit_abort_troca_cartas_logica, hvis, cachePop, h1,
          if_false]
        exact ⟨by trivial, Or.inl (getKV_delKV_self _ _)⟩

/-- C6.  Delivering the same Decision message (`Resultado2PC`) twice in
succession to a participant produces the same final state (store, caches and
random stream) as delivering it once, for both operation kinds.  The hypothesis
says the participant's in-memory entry for the transaction, if any, is a cache
of the store's record — which is how the source always writes the two (prepare
and the coordinator both store the same record in both places). -/
theorem c6_decisao_idempotente (url : String) (resultado : Resultado2PC) (sis : Sistema)
    (hcoer : ∀ t, getKV resultado.id_transacao (cacheDe url sis) = some t →
      get_transacao resultado.id_transacao sis.store = none ∨
      get_transacao resultado.id_transacao sis.store = some t) :
    participante_commit_abort_abrir_pacote_logica url resultado
        (participante_commit_abort_abrir_pacote_logica url resultado sis) =
      participante_commit_abort_abrir_pacote_logica url resultado sis ∧
    participante_commit_abort_troca_cartas_logica url resultado
        (participante_commit_abort_troca_cartas_logica url resultado sis) =
      participante_commit_abort_troca_cartas_logica url resultado sis := by
  constructor
  · obtain ⟨hca, hst⟩ := decide_abrir_pos url resultado sis
    apply decide_abrir_noop url resultado _ (delKV resultado.id_transacao (cacheDe url sis))
    · rw [hca]
      exact getKV_setKV_self _ _ _
    · exact getKV_delKV_self _ _
    · rcases hst with hnone | ⟨hsame, t, d, hvis, hd⟩
      · intro t' ht'
        rw [hnone] at ht'
        exact Option.noConfusion ht'
      · intro t' ht'
        rw [hsame] at ht'
        unfold transacaoVisivel at hvis
        rcases hcz : getKV resultado.id_transacao (cacheDe url sis) with _ | t0
        · rw [hcz] at hvis
          have hvis' : get_transacao resultado.id_transacao sis.store = some t := hvis
          have h3 : t' = t := Option.some.inj (ht'.symm.trans hvis')
          exact ⟨d, by rw [h3, hd]⟩
        · rw [hcz] at hvis
          have hvis' : t0 = t := Option.some.inj hvis
          rcases hcoer t0 hcz with hn | hs
          · rw [hn] at ht'
            exact Option.noConfusion ht'
          · have h3 : t' = t0 := Option.some.inj (ht'.symm.trans hs)
            exact ⟨d, by rw [h3, hvis', hd]⟩
  · obtain ⟨hca, hst⟩ := decide_troca_pos url resultado sis
    apply decide_troca_noop url resultado _ (delKV resultado.id_transacao (cacheDe url sis))
    · rw [hca]
      exact getKV_setKV_self _ _ _
    · exact getKV_delKV_self _ _
    · rcases hst with hnone | ⟨hsame, t, j, q, hvis, hd⟩
      · intro t' ht'
        rw [hnone] at ht'
        exact Option.noConfusion ht'
      · intro t' ht'
        rw [hsame] at ht'
        unfold transacaoVisivel at hvis
        rcases hcz : getKV resultado.id_transacao (cacheDe url sis) with _ | t0
        · rw [hcz] at hvis
          have hvis' : get_transacao resultado.id_transacao sis.store = some t := hvis
          have h3 : t' = t := Option.some.inj (ht'.symm.trans hvis')
          exact ⟨j, q, by rw [h3, hd]⟩
        · rw [hcz] at hvis
          have hvis' : t0 = t := Option.some.inj hvis
          rcases hcoer t0 hcz with hn | hs
          · rw [hn] at ht'
            exact Option.noConfusion ht'
          · have h3 : t' = t0 := Option.some.inj (ht'.symm.trans hs)
            exact ⟨j, q, by rw [h3, hvis', hd]⟩

/-- Witness for `c6_decisao_idempotente`: node `"s1"` with an empty dict (so
the coherence hypothesis holds vacuously) receiving the same GLOBAL_COMMIT
twice. -/
theorem c6_decisao_idempotente_witness :
    getKV "t6" (cacheDe "s1" sisC6) = none ∧
    (participante_commit_abort_abrir_pacote_logica "s1" ⟨"t6", "s1", "GLOBAL_COMMIT"⟩
        (participante_commit_abort_abrir_pacote_logica "s1"
          ⟨"t6", "s1", "GLOBAL_COMMIT"⟩ sisC6) =
      participante_commit_abort_abrir_pacote_logica "s1"
        ⟨"t6", "s1", "GLOBAL_COMMIT"⟩ sisC6 ∧
     participante_commit_abort_troca_cartas_logica "s1" ⟨"t6", "s1", "GLOBAL_COMMIT"⟩
        (participante_commit_abort_troca_cartas_logica "s1"
          ⟨"t6", "s1", "GLOBAL_COMMIT"⟩ sisC6) =
      participante_commit_abort_troca_cartas_logica "s1"
        ⟨"t6", "s1", "GLOBAL_COMMIT"⟩ sisC6) :=
  ⟨rfl, c6_decisao_idempotente "s1" ⟨"t6", "s1", "GLOBAL_COMMIT"⟩ sisC6
    (fun t h => nomatch h)⟩

theorem prepare_troca_inventarios (url : String) (t : Transacao2PC) (sis : Sistema) :
    (participante_prepare_troca_cartas_logica url t sis).2.store.inventarios =
      sis.store.inventarios := by
  simp only [participante_prepare_troca_cartas_logica, cachePut, set_transacao]
  split
  · split_ifs <;> rfl
  · rfl

theorem decide_abrir_abort_inventarios (url : String) (resultado : Resultado2PC)
    (sis : Sistema) (h : resultado.decisao ≠ "GLOBAL_COMMIT") :
    (participante_commit_abort_abrir_pacote_logica url resultado sis).store.inventarios =
      sis.store.inventarios := by
  simp only [participante_commit_abort_abrir_pacote_logica, cachePop,
    remover_transacao, incrementar_estoque_atomico, set_estoque_global]
  split
  · rfl
  · split
    · rw [if_neg h]
      split <;> rfl
    · rfl

theorem decide_troca_abort_inventarios (url : String) (resultado : Resultado2PC)
    (sis : Sistema) (h : resultado.decisao ≠ "GLOBAL_COMMIT") :
    (participante_commit_abort_troca_cartas_logica url resultado sis).store.inventarios =
      sis.store.inventarios := by
  simp only [participante_commit_abort_troca_cartas_logica, cachePop, remover_transacao]
  split
  · rfl
  · split
    · rw [if_neg h]
    · rfl

theorem foldl_decide_abort_inventarios (resultado : Resultado2PC)
    (endpoint_commit_abort : String) (h : resultado.decisao ≠ "GLOBAL_COMMIT") :
    ∀ (l : List String) (sis : Sistema),
    (l.foldl (fun s servidor_url =>
        if endpoint_commit_abort = "/transacao/abrir_pacote/commit_abort" then
          redeFiel.decideAbrir servidor_url resultado s
        else redeFiel.decideTroca servidor_url resultado s) sis).store.inventarios =
      sis.store.inventarios := by
  intro l
  induction l with
  | nil => intro sis; rfl
  | cons u l ih =>
    intro sis
    rw [List.foldl_cons, ih]
    by_cases hep : endpoint_commit_abort = "/transacao/abrir_pacote/commit_abort"
    · rw [if_pos hep]
      exact decide_abrir_abort_inventarios u resultado sis h
    · rw [if_neg hep]
      exact decide_troca_abort_inventarios u resultado sis h

theorem finalizar_abort_inventarios (servidores_jogo : List String)
    (url_local id_transacao endpoint_commit_abort : String) (sis : Sistema) :
    (finalizar_transacao_generica redeFiel servidores_jogo url_local id_transacao
        "GLOBAL_ABORT" endpoint_commit_abort sis).store.inventarios =
      sis.store.inventarios := by
  have hne : ("GLOBAL_ABORT" : String) ≠ "GLOBAL_COMMIT" := by decide
  simp only [finalizar_transacao_generica]
  split
  · rfl
  · simp only [remover_transacao, cachePop]
    rw [foldl_decide_abort_inventarios ⟨id_transacao, url_local, "GLOBAL_ABORT"⟩
      endpoint_commit_abort hne]
    split_ifs with h1 h2
    · exact decide_abrir_abort_inventarios url_local _ sis hne
    · exact decide_troca_abort_inventarios url_local _ sis hne
    · rfl

theorem loopVotosTroca_first_abort (servidores_jogo : List String) (url_local : String)
    (transacao : Transacao2PC) (u : String) (us : List String) (votos_commit : Nat)
    (sis : Sistema)
    (hva : (participante_prepare_troca_cartas_logica u transacao sis).1.voto =
      "VOTE_ABORT") :
    (loopVotosTroca redeFiel servidores_jogo url_local transacao (u :: us)
        votos_commit sis).1 = false ∧
    (loopVotosTroca redeFiel servidores_jogo url_local transacao (u :: us)
        votos_commit sis).2.store.inventarios = sis.store.inventarios := by
  have hnc : ¬((participante_prepare_troca_cartas_logica u transacao sis).1.voto =
      "VOTE_COMMIT") := by
    rw [hva]
    decide
  by_cases hu : u = url_local
  · subst hu
    have hstep : loopVotosTroca redeFiel servidores_jogo u transacao (u :: us)
        votos_commit sis =
        (false, finalizar_transacao_generica redeFiel servidores_jogo u
          transacao.id_transacao "GLOBAL_ABORT" "/inventario/troca/commit_abort"
          (participante_prepare_troca_cartas_logica u transacao sis).2) := by
      simp only [loopVotosTroca]
      rw [if_true]
      exact if_neg hnc
    rw [hstep]
    exact ⟨rfl, by rw [finalizar_abort_inventarios, prepare_troca_inventarios]⟩
  · have hstep : loopVotosTroca redeFiel servidores_jogo url_local transacao (u :: us)
        votos_commit sis =
        (false, finalizar_transacao_generica redeFiel servidores_jogo url_local
          transacao.id_transacao "GLOBAL_ABORT" "/inventario/troca/commit_abort"
          (participante_prepare_troca_cartas_logica u transacao sis).2) := by
      simp only [loopVotosTroca]
      rw [if_neg hu]
      exact if_neg hnc
    rw [hstep]
    exact ⟨rfl, by rw [finalizar_abort_inventarios, prepare_troca_inventarios]⟩

/-- C8.  A `trade_cards` request naming a `card_a` that player A's existing
inventory does not contain: the first prepare (whichever server heads the
list — all of them check the same shared store) votes `VOTE_ABORT`, the
transaction is finalized as GLOBAL_ABORT with the inventory table left exactly
as it was (prepare and the abort leg of decide never write an inventory), and
the client-facing endpoint replies HTTP 500. -/
theorem c8_troca_carta_ausente_aborta (u : String) (us : List String)
    (url_local id_jogador_a id_jogador_b id_carta_a id_carta_b id_transacao : String)
    (sis : Sistema) (inventario_a : Inventario)
    (hinva : get_inventario id_jogador_a sis.store = some inventario_a)
    (hcarta : inventario_a.cartas.any (fun c => c.id_carta == id_carta_a) = false) :
    (iniciar_troca_cartas redeFiel (u :: us) url_local id_jogador_a id_jogador_b
        id_carta_a id_carta_b id_transacao sis).1 = RespostaTroca.erroHTTP 500 ∧
    (iniciar_troca_cartas redeFiel (u :: us) url_local id_jogador_a id_jogador_b
        id_carta_a id_carta_b id_transacao sis).2.store.inventarios =
      sis.store.inventarios ∧
    ∀ (urlx : String) (sisP : Sistema),
      get_inventario id_jogador_a sisP.store = some inventario_a →
      (participante_prepare_troca_cartas_logica urlx
          ⟨id_transacao, url_local, "troca_cartas", "PREPARAR",
           DadosTransacao.trocaCartas
             ⟨id_jogador_a, id_carta_a, id_jogador_b, id_carta_b⟩⟩ sisP).1.voto =
        "VOTE_ABORT" := by
  have hprep : ∀ (urlx : String) (sisP : Sistema),
      get_inventario id_jogador_a sisP.store = some inventario_a →
      (participante_prepare_troca_cartas_logica urlx
          ⟨id_transacao, url_local, "troca_cartas", "PREPARAR",
           DadosTransacao.trocaCartas
             ⟨id_jogador_a, id_carta_a, id_jogador_b, id_carta_b⟩⟩ sisP).1.voto =
        "VOTE_ABORT" := by
    intro urlx sisP hP
    simp only [get_inventario] at hP
    simp only [participante_prepare_troca_cartas_logica, cachePut, set_transacao,
      get_inventario]
    simp [hP, hcarta]
  have hloop := loopVotosTroca_first_abort (u :: us) url_local
    ⟨id_transacao, url_local, "troca_cartas", "PREPARAR",
     DadosTransacao.trocaCartas ⟨id_jogador_a, id_carta_a, id_jogador_b, id_carta_b⟩⟩
    u us 0
    ⟨set_transacao
       ⟨id_transacao, url_local, "troca_cartas", "PREPARAR",
        DadosTransacao.trocaCartas ⟨id_jogador_a, id_carta_a, id_jogador_b, id_carta_b⟩⟩
       (cachePut url_local id_transacao
         ⟨id_transacao, url_local, "troca_cartas", "PREPARAR",
          DadosTransacao.trocaCartas
            ⟨id_jogador_a, id_carta_a, id_jogador_b, id_carta_b⟩⟩ sis).store,
     (cachePut url_local id_transacao
       ⟨id_transacao, url_local, "troca_cartas", "PREPARAR",
        DadosTransacao.trocaCartas ⟨id_jogador_a, id_carta_a, id_jogador_b, id_carta_b⟩⟩
       sis).caches,
     (cachePut url_local id_transacao
       ⟨id_transacao, url_local, "troca_cartas", "PREPARAR",
        DadosTransacao.trocaCartas ⟨id_jogador_a, id_carta_a, id_jogador_b, id_carta_b⟩⟩
       sis).rng⟩
    (hprep u _ hinva)
  refine ⟨?_, ?_, hprep⟩
  · simp only [iniciar_troca_cartas, iniciar_transacao_troca_cartas]
    simp [hloop.1]
  · simp only [iniciar_troca_cartas, iniciar_transacao_troca_cartas]
    simp [hloop.1]
    exact hloop.2

/-- Witness for `c8_troca_carta_ausente_aborta` on the one-node deployment. -/
theorem c8_troca_carta_ausente_aborta_witness :
    get_inventario "pa8" sisC8.store = some ⟨"pa8", [], 0⟩ ∧
    (Inventario.cartas ⟨"pa8", [], 0⟩).any (fun c => c.id_carta == "cax") = false ∧
    ((iniciar_troca_cartas redeFiel ["s1"] "s1" "pa8" "pb8" "cax" "cbx" "t8"
        sisC8).1 = RespostaTroca.erroHTTP 500 ∧
     (iniciar_troca_cartas redeFiel ["s1"] "s1" "pa8" "pb8" "cax" "cbx" "t8"
        sisC8).2.store.inventarios = sisC8.store.inventarios ∧
     ∀ (urlx : String) (sisP : Sistema),
       get_inventario "pa8" sisP.store = some ⟨"pa8", [], 0⟩ →
       (participante_prepare_troca_cartas_logica urlx
           ⟨"t8", "s1", "troca_cartas", "PREPARAR",
            DadosTransacao.trocaCartas ⟨"pa8", "cax", "pb8", "cbx"⟩⟩ sisP).1.voto =
         "VOTE_ABORT") :=
  ⟨rfl, rfl,
   c8_troca_carta_ausente_aborta "s1" [] "s1" "pa8" "pb8" "cax" "cbx" "t8" sisC8
     ⟨"pa8", [], 0⟩ rfl rfl⟩

theorem pacotesDe_congr (p : String) {s1 s2 : Store}
    (h : s1.inventarios = s2.inventarios) : pacotesDe p s1 = pacotesDe p s2 := by
  unfold pacotesDe get_inventario
  rw [h]

theorem bf_congr {s1 s2 : Store} (h : s1.inventarios = s2.inventarios)
    (hwf : InventariosBemFormados s2) : InventariosBemFormados s1 := by
  intro k inv hki
  unfold InventariosBemFormados at hwf
  rw [h] at hki
  exact hwf k inv hki

theorem pacotesDe_set_inventario (p : String) (inv : Inventario) (s : Store) :
    pacotesDe p (set_inventario inv s) =
      if inv.id_jogador = p then inv.pacotes_disponiveis else pacotesDe p s := by
  unfold pacotesDe get_inventario set_inventario
  by_cases h : inv.id_jogador = p
  · subst h
    simp [getKV_setKV_self]
  · simp only [h, if_false]
    rw [getKV_setKV_ne _ _ _ _ h]

theorem bf_set_inventario (inv : Inventario) (s : Store)
    (h : InventariosBemFormados s) : InventariosBemFormados (set_inventario inv s) := by
  intro k i hki
  unfold set_inventario at hki
  by_cases hk : inv.id_jogador = k
  · subst hk
    rw [getKV_setKV_self] at hki
    cases hki
    rfl
  · rw [getKV_setKV_ne _ _ _ _ hk] at hki
    exact h k i hki

theorem decrementar_inventarios (quantidade : Int) (s : Store) :
    (decrementar_estoque_atomico quantidade s).2.inventarios = s.inventarios := by
  unfold decrementar_estoque_atomico set_estoque_global
  split <;> rfl

theorem prepare_abrir_inventarios (url : String) (t : Transacao2PC) (sis : Sistema) :
    (participante_prepare_abrir_pacote_logica url t sis).2.store.inventarios =
      sis.store.inventarios := by
  simp only [participante_prepare_abrir_pacote_logica, cachePut, set_transacao]
  split
  · split_ifs <;> exact decrementar_inventarios _ _
  · rfl

theorem pacotesDe_set_preserva (p : String) (inv' : Inventario) (s : Store)
    (h : pacotesDe inv'.id_jogador s = inv'.pacotes_disponiveis) :
    pacotesDe p (set_inventario inv' s) = pacotesDe p s := by
  rw [pacotesDe_set_inventario]
  by_cases hp : inv'.id_jogador = p
  · rw [if_pos hp, ← hp]
    exact h.symm
  · rw [if_neg hp]

theorem pacotesDe_commit_abrir (p id_jogador : String) (cartas : List Carta) (s : Store)
    (hwf : InventariosBemFormados s) :
    pacotesDe p (set_inventario
      ⟨((get_inventario id_jogador s).getD ⟨id_jogador, [], 0⟩).id_jogador,
       ((get_inventario id_jogador s).getD ⟨id_jogador, [], 0⟩).cartas ++ cartas,
       ((get_inventario id_jogador s).getD
         ⟨id_jogador, [], 0⟩).pacotes_disponiveis⟩ s) = pacotesDe p s := by
  apply pacotesDe_set_preserva
  rcases hg : get_inventario id_jogador s with _ | inv
  · show pacotesDe id_jogador s = 0
    unfold pacotesDe
    rw [hg]
  · have hid : inv.id_jogador = id_jogador := hwf id_jogador inv hg
    show pacotesDe inv.id_jogador s = inv.pacotes_disponiveis
    rw [hid]
    unfold pacotesDe
    rw [hg]

/-- The `abrir_pacote` decide handler never changes any player's pack count
and keeps the inventory table well formed (the commit leg only appends cards). -/
theorem decide_abrir_pacotes (url : String) (resultado : Resultado2PC) (sis : Sistema)
    (hwf : InventariosBemFormados sis.store) :
    (∀ p, pacotesDe p
        (participante_commit_abort_abrir_pacote_logica url resultado sis).store =
      pacotesDe p sis.store) ∧
    InventariosBemFormados
      (participante_commit_abort_abrir_pacote_logica url resultado sis).store := by
  simp only [participante_commit_abort_abrir_pacote_logica, cachePop]
  split
  · exact ⟨fun p => rfl, hwf⟩
  · split
    · split_ifs with h1 h2
      · exact ⟨fun p => pacotesDe_commit_abrir p _ _ sis.store hwf,
               bf_set_inventario _ _ hwf⟩
      · exact ⟨fun p => rfl, hwf⟩
      · exact ⟨fun p => rfl, hwf⟩
    · exact ⟨fun p => rfl, hwf⟩

/-- The `troca_cartas` decide handler never changes any player's pack count and
keeps the inventory table well formed (the swap only rewrites card lists). -/
theorem decide_troca_pacotes (url : String) (resultado : Resultado2PC) (sis : Sistema)
    (hwf : InventariosBemFormados sis.store) :
    (∀ p, pacotesDe p
        (participante_commit_abort_troca_cartas_logica url resultado sis).store =
      pacotesDe p sis.store) ∧
    InventariosBemFormados
      (participante_commit_abort_troca_cartas_logica url resultado sis).store := by
  simp only [participante_commit_abort_troca_cartas_logica, cachePop]
  split
  · exact ⟨fun p => rfl, hwf⟩
  · split
    · split_ifs with h1
      · split
        · rename_i invA invB hga hgb
          split
          · rename_i ca cb hfa hfb
            have hida := hwf _ invA hga
            have hidb := hwf _ invB hgb
            have hA : pacotesDe
                (⟨invA.id_jogador, invA.cartas.erase ca ++ [cb],
                  invA.pacotes_disponiveis⟩ : Inventario).id_jogador sis.store =
                (⟨invA.id_jogador, invA.cartas.erase ca ++ [cb],
                  invA.pacotes_disponiveis⟩ : Inventario).pacotes_disponiveis := by
              show pacotesDe invA.id_jogador sis.store = invA.pacotes_disponiveis
              rw [hida]
              unfold pacotesDe
              rw [hga]
            have hB : pacotesDe
                (⟨invB.id_jogador, invB.cartas.erase cb ++ [ca],
                  invB.pacotes_disponiveis⟩ : Inventario).id_jogador
                  (set_inventario
                    ⟨invA.id_jogador, invA.cartas.erase ca ++ [cb],
                     invA.pacotes_disponiveis⟩ sis.store) =
                (⟨invB.id_jogador, invB.cartas.erase cb ++ [ca],
                  invB.pacotes_disponiveis⟩ : Inventario).pacotes_disponiveis := by
              show pacotesDe invB.id_jogador
                (set_inventario
                  ⟨invA.id_jogador, invA.cartas.erase ca ++ [cb],
                   invA.pacotes_disponiveis⟩ sis.store) = invB.pacotes_disponiveis
              rw [pacotesDe_set_inventario]
              by_cases hab : invA.id_jogador = invB.id_jogador
              · have hjj : invA = invB := by
                  have h2 := hga
                  rw [← hida, hab, hidb] at h2
                  exact Option.some.inj (h2.symm.trans hgb)
                rw [if_pos hab, hjj]
              · rw [if_neg hab, hidb]
                unfold pacotesDe
                rw [hgb]
            exact ⟨fun p => (pacotesDe_set_preserva p _ _ hB).trans
                (pacotesDe_set_preserva p _ _ hA),
              bf_set_inventario _ _ (bf_set_inventario _ _ hwf)⟩
          · exact ⟨fun p => rfl, hwf⟩
        · exact ⟨fun p => rfl, hwf⟩
      · exact ⟨fun p => rfl, hwf⟩
    · exact ⟨fun p => rfl, hwf⟩

theorem foldl_decideAbrir_pacotes (resultado : Resultado2PC) :
    ∀ (l : List String) (sis : Sistema), InventariosBemFormados sis.store →
    (∀ p, pacotesDe p
        ((l.foldl (fun s servidor_url =>
          redeFiel.decideAbrir servidor_url resultado s) sis)).store =
      pacotesDe p sis.store) ∧
    InventariosBemFormados
      ((l.foldl (fun s servidor_url =>
        redeFiel.decideAbrir servidor_url resultado s) sis)).store := by
  intro l
  induction l with
  | nil => exact fun sis hwf => ⟨fun p => rfl, hwf⟩
  | cons u l ih =>
    intro sis hwf
    rw [List.foldl_cons]
    have hstep := decide_abrir_pacotes u resultado sis hwf
    have hrest := ih (redeFiel.decideAbrir u resultado sis) hstep.2
    exact ⟨fun p => (hrest.1 p).trans (hstep.1 p), hrest.2⟩

theorem foldl_decideTroca_pacotes (resultado : Resultado2PC) :
    ∀ (l : List String) (sis : Sistema), InventariosBemFormados sis.store →
    (∀ p, pacotesDe p
        ((l.foldl (fun s servidor_url =>
          redeFiel.decideTroca servidor_url resultado s) sis)).store =
      pacotesDe p sis.store) ∧
    InventariosBemFormados
      ((l.foldl (fun s servidor_url =>
        redeFiel.decideTroca servidor_url resultado s) sis)).store := by
  intro l
  induction l with
  | nil => exact fun sis hwf => ⟨fun p => rfl, hwf⟩
  | cons u l ih =>
    intro sis hwf
    rw [List.foldl_cons]
    have hstep := decide_troca_pacotes u resultado sis hwf
    have hrest := ih (redeFiel.decideTroca u resultado sis) hstep.2
    exact ⟨fun p => (hrest.1 p).trans (hstep.1 p), hrest.2⟩

theorem finalizar_pacotes (servidores_jogo : List String)
    (url_local id_transacao decisao endpoint_commit_abort : String) (sis : Sistema)
    (hwf : InventariosBemFormados sis.store) :
    (∀ p, pacotesDe p
        (finalizar_transacao_generica redeFiel servidores_jogo url_local id_transacao
          decisao endpoint_commit_abort sis).store = pacotesDe p sis.store) ∧
    InventariosBemFormados
      (finalizar_transacao_generica redeFiel servidores_jogo url_local id_transacao
        decisao endpoint_commit_abort sis).store := by
  by_cases hep : endpoint_commit_abort = "/transacao/abrir_pacote/commit_abort"
  · simp only [finalizar_transacao_generica, if_pos hep]
    split
    · exact ⟨fun p => rfl, hwf⟩
    · split_ifs with h1 h2
      · have hloc := decide_abrir_pacotes url_local
          ⟨id_transacao, url_local, decisao⟩ sis hwf
        have hfold := foldl_decideAbrir_pacotes ⟨id_transacao, url_local, decisao⟩
          (outrosServidores servidores_jogo url_local)
          (participante_commit_abort_abrir_pacote_logica url_local
            ⟨id_transacao, url_local, decisao⟩ sis) hloc.2
        exact ⟨fun p => (hfold.1 p).trans (hloc.1 p), hfold.2⟩
      · have hloc := decide_troca_pacotes url_local
          ⟨id_transacao, url_local, decisao⟩ sis hwf
        have hfold := foldl_decideAbrir_pacotes ⟨id_transacao, url_local, decisao⟩
          (outrosServidores servidores_jogo url_local)
          (participante_commit_abort_troca_cartas_logica url_local
            ⟨id_transacao, url_local, decisao⟩ sis) hloc.2
        exact ⟨fun p => (hfold.1 p).trans (hloc.1 p), hfold.2⟩
      · have hfold := foldl_decideAbrir_pacotes ⟨id_transacao, url_local, decisao⟩
          (outrosServidores servidores_jogo url_local) sis hwf
        exact ⟨fun p => hfold.1 p, hfold.2⟩
  · simp only [finalizar_transacao_generica, if_neg hep]
    split
    · exact ⟨fun p => rfl, hwf⟩
    · split_ifs with h1 h2
      · have hloc := decide_abrir_pacotes url_local
          ⟨id_transacao, url_local, decisao⟩ sis hwf
        have hfold := foldl_decideTroca_pacotes ⟨id_transacao, url_local, decisao⟩
          (outrosServidores servidores_jogo url_local)
          (participante_commit_abort_abrir_pacote_logica url_local
            ⟨id_transacao, url_local, decisao⟩ sis) hloc.2
        exact ⟨fun p => (hfold.1 p).trans (hloc.1 p), hfold.2⟩
      · have hloc := decide_troca_pacotes url_local
          ⟨id_transacao, url_local, decisao⟩ sis hwf
        have hfold := foldl_decideTroca_pacotes ⟨id_transacao, url_local, decisao⟩
          (outrosServidores servidores_jogo url_local)
          (participante_commit_abort_troca_cartas_logica url_local
            ⟨id_transacao, url_local, decisao⟩ sis) hloc.2
        exact ⟨fun p => (hfold.1 p).trans (hloc.1 p), hfold.2⟩
      · have hfold := foldl_decideTroca_pacotes ⟨id_transacao, url_local, decisao⟩
          (outrosServidores servidores_jogo url_local) sis hwf
        exact ⟨fun p => hfold.1 p, hfold.2⟩

theorem loopAbrir_pacotes (servidores_jogo : List String) (url_local : String)
    (transacao : Transacao2PC) :
    ∀ (resto : List String) (votos_commit : Nat) (sis : Sistema),
    InventariosBemFormados sis.store →
    (∀ p, pacotesDe p (loopVotosRemotosAbrir redeFiel servidores_jogo url_local
        transacao resto votos_commit sis).2.store = pacotesDe p sis.store) ∧
    InventariosBemFormados (loopVotosRemotosAbrir redeFiel servidores_jogo url_local
      transacao resto votos_commit sis).2.store := by
  intro resto
  induction resto with
  | nil =>
    intro votos_commit sis hwf
    simp only [loopVotosRemotosAbrir]
    split_ifs with h
    · exact finalizar_pacotes servidores_jogo url_local transacao.id_transacao
        "GLOBAL_COMMIT" "/transacao/abrir_pacote/commit_abort" sis hwf
    · exact finalizar_pacotes servidores_jogo url_local transacao.id_transacao
        "GLOBAL_ABORT" "/transacao/abrir_pacote/commit_abort" sis hwf
  | cons u resto ih =>
    intro votos_commit sis hwf
    have hred : loopVotosRemotosAbrir redeFiel servidores_jogo url_local transacao
        (u :: resto) votos_commit sis =
        (if (participante_prepare_abrir_pacote_logica u transacao sis).1.voto =
            "VOTE_COMMIT" then
          loopVotosRemotosAbrir redeFiel servidores_jogo url_local transacao resto
            (votos_commit + 1) (participante_prepare_abrir_pacote_logica u transacao
              sis).2
        else
          (false, finalizar_transacao_generica redeFiel servidores_jogo url_local
            transacao.id_transacao "GLOBAL_ABORT" "/transacao/abrir_pacote/commit_abort"
            (participante_prepare_abrir_pacote_logica u transacao sis).2)) := rfl
    rw [hred]
    have hPinv := prepare_abrir_inventarios u transacao sis
    have hPwf : InventariosBemFormados
        (participante_prepare_abrir_pacote_logica u transacao sis).2.store :=
      bf_congr hPinv hwf
    by_cases hv : (participante_prepare_abrir_pacote_logica u transacao sis).1.voto =
        "VOTE_COMMIT"
    · rw [if_pos hv]
      have hrest := ih (votos_commit + 1)
        (participante_prepare_abrir_pacote_logica u transacao sis).2 hPwf
      exact ⟨fun p => (hrest.1 p).trans (pacotesDe_congr p hPinv), hrest.2⟩
    · rw [if_neg hv]
      have hfin := finalizar_pacotes servidores_jogo url_local transacao.id_transacao
        "GLOBAL_ABORT" "/transacao/abrir_pacote/commit_abort"
        (participante_prepare_abrir_pacote_logica u transacao sis).2 hPwf
      exact ⟨fun p => (hfin.1 p).trans (pacotesDe_congr p hPinv), hfin.2⟩

theorem loopTroca_pacotes (servidores_jogo : List String) (url_local : String)
    (transacao : Transacao2PC) :
    ∀ (resto : List String) (votos_commit : Nat) (sis : Sistema),
    InventariosBemFormados sis.store →
    (∀ p, pacotesDe p (loopVotosTroca redeFiel servidores_jogo url_local
        transacao resto votos_commit sis).2.store = pacotesDe p sis.store) ∧
    InventariosBemFormados (loopVotosTroca redeFiel servidores_jogo url_local
      transacao resto votos_commit sis).2.store := by
  intro resto
  induction resto with
  | nil =>
    intro votos_commit sis hwf
    simp only [loopVotosTroca]
    split_ifs with h
    · exact finalizar_pacotes servidores_jogo url_local transacao.id_transacao
        "GLOBAL_COMMIT" "/inventario/troca/commit_abort" sis hwf
    · exact finalizar_pacotes servidores_jogo url_local transacao.id_transacao
        "GLOBAL_ABORT" "/inventario/troca/commit_abort" sis hwf
  | cons u resto ih =>
    intro votos_commit sis hwf
    have hred : loopVotosTroca redeFiel servidores_jogo url_local transacao
        (u :: resto) votos_commit sis =
        (if (participante_prepare_troca_cartas_logica u transacao sis).1.voto =
            "VOTE_COMMIT" then
          loopVotosTroca redeFiel servidores_jogo url_local transacao resto
            (votos_commit + 1) (participante_prepare_troca_cartas_logica u transacao
              sis).2
        else
          (false, finalizar_transacao_generica redeFiel servidores_jogo url_local
            transacao.id_transacao "GLOBAL_ABORT" "/inventario/troca/commit_abort"
            (participante_prepare_troca_cartas_logica u transacao sis).2)) := by
      by_cases hu : u = url_local
      · subst hu
        simp only [loopVotosTroca]
        rw [if_true]
      · simp only [loopVotosTroca]
        rw [if_neg hu]
        exact rfl
    rw [hred]
    have hPinv := prepare_troca_inventarios u transacao sis
    have hPwf : InventariosBemFormados
        (participante_prepare_troca_cartas_logica u transacao sis).2.store :=
      bf_congr hPinv hwf
    by_cases hv : (participante_prepare_troca_cartas_logica u transacao sis).1.voto =
        "VOTE_COMMIT"
    · rw [if_pos hv]
      have hrest := ih (votos_commit + 1)
        (participante_prepare_troca_cartas_logica u transacao sis).2 hPwf
      exact ⟨fun p => (hrest.1 p).trans (pacotesDe_congr p hPinv), hrest.2⟩
    · rw [if_neg hv]
      have hfin := finalizar_pacotes servidores_jogo url_local transacao.id_transacao
        "GLOBAL_ABORT" "/inventario/troca/commit_abort"
        (participante_prepare_troca_cartas_logica u transacao sis).2 hPwf
      exact ⟨fun p => (hfin.1 p).trans (pacotesDe_congr p hPinv), hfin.2⟩

theorem iniciar_abrir_pacotes (servidores_jogo : List String)
    (url_local id_jogador id_transacao : String) (sis : Sistema)
    (hwf : InventariosBemFormados sis.store) :
    (∀ p, pacotesDe p (iniciar_transacao_abertura_pacote redeFiel servidores_jogo
        url_local id_jogador id_transacao sis).2.store = pacotesDe p sis.store) ∧
    InventariosBemFormados (iniciar_transacao_abertura_pacote redeFiel servidores_jogo
      url_local id_jogador id_transacao sis).2.store := by
  simp only [iniciar_transacao_abertura_pacote]
  have hPinv := prepare_abrir_inventarios url_local
    ⟨id_transacao, url_local, "abrir_pacote", "PREPARAR",
     DadosTransacao.abrirPacote id_jogador 1⟩
    ⟨set_transacao ⟨id_transacao, url_local, "abrir_pacote", "PREPARAR",
       DadosTransacao.abrirPacote id_jogador 1⟩
      (cachePut url_local id_transacao
        ⟨id_transacao, url_local, "abrir_pacote", "PREPARAR",
         DadosTransacao.abrirPacote id_jogador 1⟩ sis).store,
     (cachePut url_local id_transacao
       ⟨id_transacao, url_local, "abrir_pacote", "PREPARAR",
        DadosTransacao.abrirPacote id_jogador 1⟩ sis).caches,
     (cachePut url_local id_transacao
       ⟨id_transacao, url_local, "abrir_pacote", "PREPARAR",
        DadosTransacao.abrirPacote id_jogador 1⟩ sis).rng⟩
  have hPwf : InventariosBemFormados
      (participante_prepare_abrir_pacote_logica url_local
        ⟨id_transacao, url_local, "abrir_pacote", "PREPARAR",
         DadosTransacao.abrirPacote id_jogador 1⟩
        ⟨set_transacao ⟨id_transacao, url_local, "abrir_pacote", "PREPARAR",
           DadosTransacao.abrirPacote id_jogador 1⟩
          (cachePut url_local id_transacao
            ⟨id_transacao, url_local, "abrir_pacote", "PREPARAR",
             DadosTransacao.abrirPacote id_jogador 1⟩ sis).store,
         (cachePut url_local id_transacao
           ⟨id_transacao, url_local, "abrir_pacote", "PREPARAR",
            DadosTransacao.abrirPacote id_jogador 1⟩ sis).caches,
         (cachePut url_local id_transacao
           ⟨id_transacao, url_local, "abrir_pacote", "PREPARAR",
            DadosTransacao.abrirPacote id_jogador 1⟩ sis).rng⟩).2.store :=
    bf_congr hPinv hwf
  by_cases hv : (participante_prepare_abrir_pacote_logica url_local
      ⟨id_transacao, url_local, "abrir_pacote", "PREPARAR",
       DadosTransacao.abrirPacote id_jogador 1⟩
      ⟨set_transacao ⟨id_transacao, url_local, "abrir_pacote", "PREPARAR",
         DadosTransacao.abrirPacote id_jogador 1⟩
        (cachePut url_local id_transacao
          ⟨id_transacao, url_local, "abrir_pacote", "PREPARAR",
           DadosTransacao.abrirPacote id_jogador 1⟩ sis).store,
       (cachePut url_local id_transacao
         ⟨id_transacao, url_local, "abrir_pacote", "PREPARAR",
          DadosTransacao.abrirPacote id_jogador 1⟩ sis).caches,
       (cachePut url_local id_transacao
         ⟨id_transacao, url_local, "abrir_pacote", "PREPARAR",
          DadosTransacao.abrirPacote id_jogador 1⟩ sis).rng⟩).1.voto = "VOTE_COMMIT"
  · rw [if_pos hv]
    have hloop := loopAbrir_pacotes servidores_jogo url_local
      ⟨id_transacao, url_local, "abrir_pacote", "PREPARAR",
       DadosTransacao.abrirPacote id_jogador 1⟩
      (outrosServidores servidores_jogo url_local) 1 _ hPwf
    exact ⟨fun p => (hloop.1 p).trans (pacotesDe_congr p hPinv), hloop.2⟩
  · rw [if_neg hv]
    have hfin := finalizar_pacotes servidores_jogo url_local id_transacao
      "GLOBAL_ABORT" "/transacao/abrir_pacote/commit_abort" _ hPwf
    exact ⟨fun p => (hfin.1 p).trans (pacotesDe_congr p hPinv), hfin.2⟩

theorem iniciar_troca_pacotes (servidores_jogo : List String) (url_local : String)
    (detalhes_troca : DetalhesTroca) (participantes_url : List String)
    (id_transacao : String) (sis : Sistema)
    (hwf : InventariosBemFormados sis.store) :
    (∀ p, pacotesDe p (iniciar_transacao_troca_cartas redeFiel servidores_jogo
        url_local detalhes_troca participantes_url id_transacao sis).2.store =
      pacotesDe p sis.store) ∧
    InventariosBemFormados (iniciar_transacao_troca_cartas redeFiel servidores_jogo
      url_local detalhes_troca participantes_url id_transacao sis).2.store := by
  simp only [iniciar_transacao_troca_cartas]
  have hloop := loopTroca_pacotes servidores_jogo url_local
    ⟨id_transacao, url_local, "troca_cartas", "PREPARAR",
     DadosTransacao.trocaCartas detalhes_troca⟩ servidores_jogo 0
    ⟨set_transacao ⟨id_transacao, url_local, "troca_cartas", "PREPARAR",
       DadosTransacao.trocaCartas detalhes_troca⟩
      (cachePut url_local id_transacao
        ⟨id_transacao, url_local, "troca_cartas", "PREPARAR",
         DadosTransacao.trocaCartas detalhes_troca⟩ sis).store,
     (cachePut url_local id_transacao
       ⟨id_transacao, url_local, "troca_cartas", "PREPARAR",
        DadosTransacao.trocaCartas detalhes_troca⟩ sis).caches,
     (cachePut url_local id_transacao
       ⟨id_transacao, url_local, "troca_cartas", "PREPARAR",
        DadosTransacao.trocaCartas detalhes_troca⟩ sis).rng⟩ hwf
  exact ⟨fun p => hloop.1 p, hloop.2⟩

theorem abrir_pacote_nao_cria_pacotes (servidores_jogo : List String)
    (url_local id_jogador id_transacao : String) (sis : Sistema)
    (hwf : InventariosBemFormados sis.store) :
    ∀ p, pacotesDe p (abrir_pacote redeFiel servidores_jogo url_local id_jogador
        id_transacao sis).2.store ≤ pacotesDe p sis.store := by
  intro p
  simp only [abrir_pacote]
  split
  · exact le_refl _
  · rename_i inv hg
    have hid : inv.id_jogador = id_jogador := hwf id_jogador inv hg
    have hwfA : InventariosBemFormados
        (set_inventario ⟨inv.id_jogador, inv.cartas, inv.pacotes_disponiveis - 1⟩
          sis.store) :=
      bf_set_inventario _ _ hwf
    have hini := iniciar_abrir_pacotes servidores_jogo url_local id_jogador
      id_transacao
      ⟨set_inventario ⟨inv.id_jogador, inv.cartas, inv.pacotes_disponiveis - 1⟩
         sis.store, sis.caches, sis.rng⟩ hwfA
    have hsisA : ∀ q, pacotesDe q
        (set_inventario ⟨inv.id_jogador, inv.cartas, inv.pacotes_disponiveis - 1⟩
          sis.store) ≤ pacotesDe q sis.store := by
      intro q
      rw [pacotesDe_set_inventario]
      by_cases hq : (⟨inv.id_jogador, inv.cartas, inv.pacotes_disponiveis - 1⟩ :
          Inventario).id_jogador = q
      · rw [if_pos hq]
        have hval : pacotesDe q sis.store = inv.pacotes_disponiveis := by
          have hq' : id_jogador = q := by
            rw [← hid]
            exact hq
          subst hq'
          unfold pacotesDe
          rw [hg]
        have hle : inv.pacotes_disponiveis - 1 ≤ inv.pacotes_disponiveis := by omega
        rw [hval]
        exact hle
      · rw [if_neg hq]
    split_ifs with h0 hs
    · exact le_refl _
    · split
      · exact le_trans (le_of_eq (hini.1 p)) (hsisA p)
      · exact le_trans (le_of_eq (hini.1 p)) (hsisA p)
    · show pacotesDe p
          (set_inventario ⟨inv.id_jogador, inv.cartas, inv.pacotes_disponiveis - 1 + 1⟩
            (iniciar_transacao_abertura_pacote redeFiel servidores_jogo url_local
              id_jogador id_transacao
              ⟨set_inventario
                 ⟨inv.id_jogador, inv.cartas, inv.pacotes_disponiveis - 1⟩ sis.store,
               sis.caches, sis.rng⟩).2.store) ≤ pacotesDe p sis.store
      rw [pacotesDe_set_inventario]
      by_cases hq : (⟨inv.id_jogador, inv.cartas, inv.pacotes_disponiveis - 1 + 1⟩ :
          Inventario).id_jogador = p
      · rw [if_pos hq]
        have hval : pacotesDe p sis.store = inv.pacotes_disponiveis := by
          have hq' : id_jogador = p := by
            rw [← hid]
            exact hq
          subst hq'
          unfold pacotesDe
          rw [hg]
        rw [hval]
        show inv.pacotes_disponiveis - 1 + 1 ≤ inv.pacotes_disponiveis
        omega
      · rw [if_neg hq]
        exact le_trans (le_of_eq (hini.1 p)) (hsisA p)

theorem troca_nao_muda_pacotes (servidores_jogo : List String)
    (url_local id_jogador_a id_jogador_b id_carta_a id_carta_b id_transacao : String)
    (sis : Sistema) (hwf : InventariosBemFormados sis.store) :
    ∀ p, pacotesDe p (iniciar_troca_cartas redeFiel servidores_jogo url_local
        id_jogador_a id_jogador_b id_carta_a id_carta_b id_transacao sis).2.store =
      pacotesDe p sis.store := by
  intro p
  simp only [iniciar_troca_cartas]
  have hini := iniciar_troca_pacotes servidores_jogo url_local
    ⟨id_jogador_a, id_carta_a, id_jogador_b, id_carta_b⟩ servidores_jogo
    id_transacao sis hwf
  split_ifs with hs
  · exact hini.1 p
  · exact hini.1 p

/-- C10.  `POST /jogador/entrar` with a fresh id (no inventory exists under it,
which is what a fresh `uuid.uuid4()` guarantees) creates and persists an
inventory with exactly 1 available pack and an empty card list, returns it
(always showing `pacotes_disponiveis = 1`), and touches no other inventory.
Moreover this initial grant is the only way a player ever receives a pack: on a
well-formed store, the `open_pack` endpoint never increases any player's
`pacotes_disponiveis` (success consumes one; failure puts the one back) and the
trade endpoint never changes any player's pack count at all. -/
theorem c10_entrar_inventario_inicial :
    (∀ (nome_servidor nome_jogador id_jogador : String) (sis : Sistema),
      get_inventario id_jogador sis.store = none →
      (entrar_jogador nome_servidor nome_jogador id_jogador sis).1.2 =
        ⟨id_jogador, [], 1⟩ ∧
      (entrar_jogador nome_servidor nome_jogador id_jogador
        sis).1.2.pacotes_disponiveis = 1 ∧
      get_inventario id_jogador
          (entrar_jogador nome_servidor nome_jogador id_jogador sis).2.store =
        some ⟨id_jogador, [], 1⟩ ∧
      ∀ q, q ≠ id_jogador →
        get_inventario q
            (entrar_jogador nome_servidor nome_jogador id_jogador sis).2.store =
          get_inventario q sis.store) ∧
    (∀ (servidores_jogo : List String) (url_local id_jogador id_transacao : String)
       (sis : Sistema), InventariosBemFormados sis.store →
      ∀ p, pacotesDe p (abrir_pacote redeFiel servidores_jogo url_local id_jogador
          id_transacao sis).2.store ≤ pacotesDe p sis.store) ∧
    (∀ (servidores_jogo : List String)
       (url_local id_jogador_a id_jogador_b id_carta_a id_carta_b id_transacao :
         String) (sis : Sistema), InventariosBemFormados sis.store →
      ∀ p, pacotesDe p (iniciar_troca_cartas redeFiel servidores_jogo url_local
          id_jogador_a id_jogador_b id_carta_a id_carta_b id_transacao sis).2.store =
        pacotesDe p sis.store) := by
  refine ⟨?_, abrir_pacote_nao_cria_pacotes, troca_nao_muda_pacotes⟩
  intro nome_servidor nome_jogador id_jogador sis hnone
  simp only [entrar_jogador, hnone]
  refine ⟨by trivial, by trivial, ?_, ?_⟩
  · exact getKV_setKV_self _ _ _
  · intro q hq
    exact getKV_setKV_ne _ _ _ _ (Ne.symm hq)

/-- Witness for `c10_entrar_inventario_inicial` at the empty store. -/
theorem c10_entrar_inventario_inicial_witness :
    get_inventario "pz" sisVazio.store = none ∧
    InventariosBemFormados sisVazio.store ∧
    ((entrar_jogador "sv" "zoe" "pz" sisVazio).1.2 = ⟨"pz", [], 1⟩ ∧
     (entrar_jogador "sv" "zoe" "pz" sisVazio).1.2.pacotes_disponiveis = 1 ∧
     get_inventario "pz" (entrar_jogador "sv" "zoe" "pz" sisVazio).2.store =
       some ⟨"pz", [], 1⟩ ∧
     ∀ q, q ≠ "pz" →
       get_inventario q (entrar_jogador "sv" "zoe" "pz" sisVazio).2.store =
         get_inventario q sisVazio.store) ∧
    (∀ p, pacotesDe p
        (abrir_pacote redeFiel ["s1"] "s1" "pz" "tz" sisVazio).2.store ≤
      pacotesDe p sisVazio.store) ∧
    (∀ p, pacotesDe p
        (iniciar_troca_cartas redeFiel ["s1"] "s1" "pz" "pq" "c1" "c2" "tz"
          sisVazio).2.store = pacotesDe p sisVazio.store) :=
  by
  refine ⟨rfl, ?_, ?_, ?_, ?_⟩
  · exact fun k inv h => nomatch h
  · exact c10_entrar_inventario_inicial.1 "sv" "zoe" "pz" sisVazio rfl
  · exact c10_entrar_inventario_inicial.2.1 ["s1"] "s1" "pz" "tz" sisVazio
      (fun k inv h => nomatch h)
  · exact c10_entrar_inventario_inicial.2.2 ["s1"] "s1" "pz" "pq" "c1" "c2" "tz"
      sisVazio (fun k inv h => nomatch h)
